import Mathlib

/-!
Verification development for the Scramble side-scrolling shooter core
(`src/entities.js`, `src/levels.js`, `src/game.js`).

Embedding conventions:
* JavaScript numbers are modelled as exact rationals (`ℚ`); every numeric
  literal of the source is a rational, and the arithmetic of the claims is
  settled in exact arithmetic.
* `Math.sin`, `Math.cos` and `Math.PI` are modelled by an abstract
  environment `Env` of rational functions/constants; no claim depends on
  their values.
* `Math.random` is modelled as an explicit stream of rationals (`Rng`)
  threaded through the state, consumed one draw at a time in the order the
  source consumes it.
* Mutating class methods become functions returning the updated structure;
  the field names and the order of field updates follow the source.
-/

namespace Scramble

/-- Abstract mathematical environment: `Math.sin`, `Math.cos`, `Math.PI`. -/
structure Env where
  sin : ℚ → ℚ
  cos : ℚ → ℚ
  pi : ℚ

/-- The `Math.random` stream: an infinite sequence of draws and a cursor. -/
structure Rng where
  seq : ℕ → ℚ
  k : ℕ

/-- One call of `Math.random()`: the current draw, and the advanced stream. -/
def Rng.next (r : Rng) : ℚ × Rng := (r.seq r.k, ⟨r.seq, r.k + 1⟩)

/-- JavaScript `a || d` for an optional numeric config field (`0` is falsy). -/
def orQ (o : Option ℚ) (d : ℚ) : ℚ :=
  match o with
  | none => d
  | some v => if v = 0 then d else v

/-- JavaScript `a || d` for an optional string config field (`""` is falsy). -/
def orS (o : Option String) (d : String) : String :=
  match o with
  | none => d
  | some v => if v = "" then d else v

/-- JavaScript array indexing `l[i]` with an integer index: negative or
out-of-range indices yield `undefined` (modelled as `none`). -/
def listGetInt {α : Type} (l : List α) (i : ℤ) : Option α :=
  if i < 0 then none else l.get? i.toNat

/-- The input flag struct read by the game core each frame. -/
structure InputState where
  up : Bool
  down : Bool
  left : Bool
  right : Bool
  shoot : Bool
  bomb : Bool

/-- The all-false input state. -/
def input0 : InputState := ⟨false, false, false, false, false, false⟩

/-! ### Base entity (`src/entities.js`, class `Entity`) -/

/-- Base entity data: position, size and the `active` liveness flag.  All
entity classes of the source inherit these fields and the collision test
unchanged. -/
structure Entity where
  x : ℚ
  y : ℚ
  width : ℚ
  height : ℚ
  active : Bool

/-- A bounding box as returned by `getBounds()`. -/
structure Rect where
  x : ℚ
  y : ℚ
  width : ℚ
  height : ℚ

/-- `Entity.getBounds`. -/
def Entity.getBounds (e : Entity) : Rect :=
  { x := e.x, y := e.y, width := e.width, height := e.height }

/-- `Entity.collidesWith`: AABB collision detection, gated on both operands
being active. -/
def Entity.collidesWith (e other : Entity) : Bool :=
  if ¬e.active ∨ ¬other.active then false
  else
    let a := e.getBounds
    let b := other.getBounds
    decide (a.x < b.x + b.width ∧ a.x + a.width > b.x ∧
      a.y < b.y + b.height ∧ a.y + a.height > b.y)

/-- `Entity.getCenterX`. -/
def Entity.getCenterX (e : Entity) : ℚ := e.x + e.width / 2

/-- `Entity.getCenterY`. -/
def Entity.getCenterY (e : Entity) : ℚ := e.y + e.height / 2

/-! ### Projectiles (`Bullet`, `Bomb`) -/

/-- `Bullet`: position/size (8×4), velocity vector, ownership flag and
damage. -/
structure Bullet where
  x : ℚ
  y : ℚ
  width : ℚ
  height : ℚ
  active : Bool
  velocityX : ℚ
  velocityY : ℚ
  isPlayerBullet : Bool
  damage : ℚ
  color : String
  glowColor : String

/-- The `Bullet` constructor (`damage` defaults to `1` at every call site
that omits it). -/
def Bullet.init (x y velocityX velocityY : ℚ) (isPlayerBullet : Bool)
    (damage : ℚ) : Bullet :=
  let color := if isPlayerBullet then "#4a9eff" else "#ff6b6b"
  { x := x, y := y, width := 8, height := 4, active := true,
    velocityX := velocityX, velocityY := velocityY,
    isPlayerBullet := isPlayerBullet, damage := damage,
    color := color, glowColor := color }

/-- View a bullet through its inherited `Entity` fields. -/
def Bullet.toEntity (b : Bullet) : Entity :=
  { x := b.x, y := b.y, width := b.width, height := b.height, active := b.active }

/-- `Bullet.update`: linear motion, deactivation on leaving any screen
edge. -/
def Bullet.update (b : Bullet) (canvasWidth canvasHeight : ℚ) : Bullet :=
  let x := b.x + b.velocityX
  let y := b.y + b.velocityY
  let act :=
    if x < -20 ∨ x > canvasWidth + 20 ∨ y < -20 ∨ y > canvasHeight + 20 then
      false
    else b.active
  { b with x := x, y := y, active := act }

/-- `Bomb`: dropped projectile with constant gravity. -/
structure Bomb where
  x : ℚ
  y : ℚ
  width : ℚ
  height : ℚ
  active : Bool
  velocityX : ℚ
  velocityY : ℚ
  gravity : ℚ
  damage : ℚ
  color : String
  glowColor : String

/-- The `Bomb` constructor. -/
def Bomb.init (x y velocityX velocityY : ℚ) : Bomb :=
  { x := x, y := y, width := 6, height := 6, active := true,
    velocityX := velocityX, velocityY := velocityY, gravity := 0.15,
    damage := 2, color := "#ff8c00", glowColor := "#ff8c00" }

/-- View a bomb through its inherited `Entity` fields. -/
def Bomb.toEntity (b : Bomb) : Entity :=
  { x := b.x, y := b.y, width := b.width, height := b.height, active := b.active }

/-- `Bomb.update`: Euler integration (`velocityY += gravity` before the `y`
move), deactivation off the left/right/bottom edges. -/
def Bomb.update (b : Bomb) (canvasWidth canvasHeight : ℚ) : Bomb :=
  let x := b.x + b.velocityX
  let vy := b.velocityY + b.gravity
  let y := b.y + vy
  let act :=
    if x < -20 ∨ x > canvasWidth + 20 ∨ y > canvasHeight + 20 then false
    else b.active
  { b with x := x, y := y, velocityY := vy, active := act }

/-! ### Player (`src/entities.js`, class `Player`) -/

/-- The player ship. -/
structure Player where
  x : ℚ
  y : ℚ
  width : ℚ
  height : ℚ
  active : Bool
  speed : ℚ
  lives : ℚ
  shootCooldown : ℚ
  shootCooldownMax : ℚ
  bombCooldown : ℚ
  bombCooldownMax : ℚ
  isInvincible : Bool
  invincibleTimer : ℚ
  invincibleDuration : ℚ
  color : String
  glowColor : String
  canvasWidth : ℚ
  canvasHeight : ℚ
  fuel : ℚ
  maxFuel : ℚ
  fuelDrainRate : ℚ

/-- The `Player` constructor. -/
def Player.init (canvasWidth canvasHeight : ℚ) : Player :=
  { x := 60, y := canvasHeight / 2 - 16 / 2, width := 32, height := 16,
    active := true, speed := 4, lives := 3,
    shootCooldown := 0, shootCooldownMax := 10,
    bombCooldown := 0, bombCooldownMax := 30,
    isInvincible := false, invincibleTimer := 0, invincibleDuration := 120,
    color := "#00ff88", glowColor := "#00ff88",
    canvasWidth := canvasWidth, canvasHeight := canvasHeight,
    fuel := 100, maxFuel := 100, fuelDrainRate := 0.05 }

/-- View the player through its inherited `Entity` fields. -/
def Player.toEntity (p : Player) : Entity :=
  { x := p.x, y := p.y, width := p.width, height := p.height, active := p.active }

/-- `Player.update`: movement clipped against the corridor bounds, cooldown
and invincibility ticking, and the per-frame fuel drain with its clamp at
`0`.  The `y`/`x` conditions are evaluated sequentially as in the source. -/
def Player.update (p : Player) (input : InputState) (topBound bottomBound : ℚ) :
    Player :=
  let y1 := if input.up ∧ p.y > topBound + 5 then p.y - p.speed else p.y
  let y2 := if input.down ∧ y1 + p.height < bottomBound - 5 then y1 + p.speed else y1
  let x1 := if input.left ∧ p.x > 30 then p.x - p.speed * 0.5 else p.x
  let x2 := if input.right ∧ x1 < p.canvasWidth * 0.4 then x1 + p.speed * 0.5 else x1
  let sc := if p.shootCooldown > 0 then p.shootCooldown - 1 else p.shootCooldown
  let bc := if p.bombCooldown > 0 then p.bombCooldown - 1 else p.bombCooldown
  let invPair :=
    if p.isInvincible then
      let t := p.invincibleTimer - 1
      (if t ≤ 0 then false else true, t)
    else (p.isInvincible, p.invincibleTimer)
  let f1 := p.fuel - p.fuelDrainRate
  let f2 := if f1 ≤ 0 then 0 else f1
  { p with
    x := x2, y := y2, shootCooldown := sc, bombCooldown := bc,
    isInvincible := invPair.1, invincibleTimer := invPair.2, fuel := f2 }

/-- `Player.shoot`: fires only when the cooldown has expired; resets the
cooldown when it fires. -/
def Player.shoot (p : Player) : Player × Option Bullet :=
  if p.shootCooldown > 0 then (p, none)
  else
    ({ p with shootCooldown := p.shootCooldownMax },
     some (Bullet.init (p.x + p.width) (p.toEntity.getCenterY - 2) 10 0 true 1))

/-- `Player.bomb`. -/
def Player.bomb (p : Player) : Player × Option Bomb :=
  if p.bombCooldown > 0 then (p, none)
  else
    ({ p with bombCooldown := p.bombCooldownMax },
     some (Bomb.init p.toEntity.getCenterX (p.y + p.height) 3 4))

/-- `Player.hit`: combat-hit resolution.  While invincible it reports
`false` and changes nothing; otherwise it decrements `lives` and arms the
invincibility window. -/
def Player.hit (p : Player) : Player × Bool :=
  if p.isInvincible then (p, false)
  else
    ({ p with
        lives := p.lives - 1, isInvincible := true,
        invincibleTimer := p.invincibleDuration }, true)

/-- `Player.addFuel`: clamped to `maxFuel`. -/
def Player.addFuel (p : Player) (amount : ℚ) : Player :=
  { p with fuel := min p.maxFuel (p.fuel + amount) }

/-- `Player.reset`: restores the starting position, `3` lives and full
fuel. -/
def Player.reset (p : Player) (_canvasWidth canvasHeight : ℚ) : Player :=
  { p with
    x := 60, y := canvasHeight / 2 - p.height / 2, lives := 3,
    fuel := p.maxFuel, isInvincible := false, invincibleTimer := 0,
    shootCooldown := 0, bombCooldown := 0 }

/-! ### Enemies and ground targets -/

/-- A per-type enemy configuration record (`ENEMY_TYPES` entries); fields
that some entries omit are `Option`s, defaulted by the constructor with
JavaScript `||` semantics. -/
structure EnemyConfig where
  width : ℚ
  height : ℚ
  health : ℚ
  points : ℚ
  color : String
  glowColor : Option String
  behavior : Option String
  speed : Option ℚ
  shootChance : Option ℚ
  waveAmplitude : Option ℚ
  waveSpeed : Option ℚ
deriving DecidableEq

/-- A flying enemy. -/
structure Enemy where
  x : ℚ
  y : ℚ
  width : ℚ
  height : ℚ
  active : Bool
  type : String
  health : ℚ
  maxHealth : ℚ
  points : ℚ
  color : String
  glowColor : String
  behavior : String
  speed : ℚ
  shootChance : ℚ
  startY : ℚ
  angle : ℚ
  waveAmplitude : ℚ
  waveSpeed : ℚ
  animFrame : ℚ
  animTimer : ℚ

/-- The `Enemy` constructor; `angleDraw` is the `Math.random()` draw used
for the initial wave phase. -/
def Enemy.init (env : Env) (x y : ℚ) (type : String) (config : EnemyConfig)
    (angleDraw : ℚ) : Enemy :=
  { x := x, y := y, width := config.width, height := config.height,
    active := true, type := type, health := config.health,
    maxHealth := config.health, points := config.points,
    color := config.color, glowColor := orS config.glowColor config.color,
    behavior := orS config.behavior "straight", speed := orQ config.speed 2,
    shootChance := orQ config.shootChance 0,
    startY := y, angle := angleDraw * env.pi * 2,
    waveAmplitude := orQ config.waveAmplitude 30,
    waveSpeed := orQ config.waveSpeed 0.05,
    animFrame := 0, animTimer := 0 }

/-- View an enemy through its inherited `Entity` fields. -/
def Enemy.toEntity (e : Enemy) : Entity :=
  { x := e.x, y := e.y, width := e.width, height := e.height, active := e.active }

/-- `Enemy.update`: scroll plus own speed leftward, behaviour-specific
vertical motion (`chase` falls through to straight), animation ticking, and
off-screen-left deactivation. -/
def Enemy.update (env : Env) (e : Enemy) (scrollSpeed : ℚ) : Enemy :=
  let x := e.x - (scrollSpeed + e.speed)
  let moved : Enemy :=
    if e.behavior = "wave" then
      let angle := e.angle + e.waveSpeed
      { e with
        x := x, angle := angle,
        y := e.startY + env.sin angle * e.waveAmplitude }
    else if e.behavior = "dive" then { e with x := x, y := e.y + 2 }
    else { e with x := x }
  let anim : Enemy :=
    if moved.animTimer + 1 > 15 then
      { moved with animTimer := 0, animFrame := 1 - moved.animFrame }
    else { moved with animTimer := moved.animTimer + 1 }
  if anim.x + anim.width < -50 then { anim with active := false } else anim

/-- `Enemy.takeDamage`: returns the damaged enemy and whether it was
destroyed (health dropped to `≤ 0`). -/
def Enemy.takeDamage (e : Enemy) (amount : ℚ) : Enemy × Bool :=
  let h := e.health - amount
  if h ≤ 0 then ({ e with health := h, active := false }, true)
  else ({ e with health := h }, false)

/-- `Enemy.shoot`: a leftward hostile bullet. -/
def Enemy.shoot (e : Enemy) : Bullet :=
  Bullet.init e.x (e.toEntity.getCenterY - 2) (-6) 0 false 1

/-- A per-type ground-target configuration record (`GROUND_TARGET_TYPES`
entries). -/
structure GroundTargetConfig where
  width : ℚ
  height : ℚ
  points : ℚ
  color : String
  glowColor : Option String
  givesFuel : Option Bool
  fuelAmount : Option ℚ
  shootChance : Option ℚ
  floatHeight : Option ℚ

/-- A ground target (rocket, fuel tank, base, radar). -/
structure GroundTarget where
  x : ℚ
  y : ℚ
  width : ℚ
  height : ℚ
  active : Bool
  type : String
  points : ℚ
  color : String
  glowColor : String
  givesFuel : Bool
  fuelAmount : ℚ
  shootChance : ℚ

/-- The `GroundTarget` constructor. -/
def GroundTarget.init (x y : ℚ) (type : String) (config : GroundTargetConfig) :
    GroundTarget :=
  { x := x, y := y, width := config.width, height := config.height,
    active := true, type := type, points := config.points,
    color := config.color, glowColor := orS config.glowColor config.color,
    givesFuel := config.givesFuel.getD false,
    fuelAmount := orQ config.fuelAmount 0,
    shootChance := orQ config.shootChance 0 }

/-- View a ground target through its inherited `Entity` fields. -/
def GroundTarget.toEntity (t : GroundTarget) : Entity :=
  { x := t.x, y := t.y, width := t.width, height := t.height, active := t.active }

/-- `GroundTarget.update`: moves with the scroll only; deactivates
off-screen left. -/
def GroundTarget.update (t : GroundTarget) (scrollSpeed : ℚ) : GroundTarget :=
  let x := t.x - scrollSpeed
  if x + t.width < -50 then { t with x := x, active := false }
  else { t with x := x }

/-- `GroundTarget.shoot`: an upward hostile bullet. -/
def GroundTarget.shoot (t : GroundTarget) : Bullet :=
  Bullet.init t.toEntity.getCenterX t.y 0 (-5) false 1

/-! ### Terrain segments and particles -/

/-- `TerrainSegment`: a vertical slice of the cave with independent
top-ceiling and bottom-floor heights. -/
structure TerrainSegment where
  x : ℚ
  topHeight : ℚ
  bottomHeight : ℚ
  width : ℚ
deriving DecidableEq

/-- `TerrainSegment.update`: scrolls the slice left. -/
def TerrainSegment.update (s : TerrainSegment) (scrollSpeed : ℚ) : TerrainSegment :=
  { s with x := s.x - scrollSpeed }

/-- Which wall of the corridor an entity struck. -/
inductive WallHit where
  | top
  | bottom
deriving DecidableEq

/-- `TerrainSegment.collidesWithEntity`: reports the wall struck (`'top'`
is tested first), or nothing. -/
def TerrainSegment.collidesWithEntity (s : TerrainSegment) (e : Entity)
    (canvasHeight : ℚ) : Option WallHit :=
  if ¬e.active then none
  else if e.y < s.topHeight ∧ e.x < s.x + s.width ∧ e.x + e.width > s.x then
    some .top
  else
    let bottomY := canvasHeight - s.bottomHeight
    if e.y + e.height > bottomY ∧ e.x < s.x + s.width ∧ e.x + e.width > s.x then
      some .bottom
    else none

/-- An explosion particle.  The source draws a random angle and speed and
stores `cos(angle)*speed`, `sin(angle)*speed`; the constructor takes the
four `Math.random()` draws in the order the source makes them. -/
structure Particle where
  x : ℚ
  y : ℚ
  color : String
  vx : ℚ
  vy : ℚ
  size : ℚ
  life : ℚ
  maxLife : ℚ
  active : Bool

/-- The `Particle` constructor: consumes four draws (angle, speed, size,
life). -/
def Particle.init (env : Env) (x y : ℚ) (color : String) (rng : Rng) :
    Particle × Rng :=
  let (r1, rng) := rng.next
  let (r2, rng) := rng.next
  let (r3, rng) := rng.next
  let (r4, rng) := rng.next
  let angle := r1 * env.pi * 2
  let speed := 1 + r2 * 4
  let life := 25 + r4 * 20
  ({ x := x, y := y, color := color, vx := env.cos angle * speed,
     vy := env.sin angle * speed, size := 2 + r3 * 4, life := life,
     maxLife := life, active := true }, rng)

/-- `Particle.update`. -/
def Particle.update (p : Particle) : Particle :=
  let life := p.life - 1
  { p with
    x := p.x + p.vx, y := p.y + p.vy, vy := p.vy + 0.08, life := life,
    active := if life ≤ 0 then false else p.active }

/-- `createExplosion`: `count` fresh particles at `(x, y)` (draws consumed
in creation order). -/
def createExplosion (env : Env) (x y : ℚ) (color : String) :
    ℕ → Rng → List Particle × Rng
  | 0, rng => ([], rng)
  | n + 1, rng =>
    let (p, rng1) := Particle.init env x y color rng
    let (ps, rng2) := createExplosion env x y color n rng1
    (p :: ps, rng2)

/-! ### Static configuration tables (`src/entities.js` bottom,
`src/levels.js` top) -/

/-- `ENEMY_TYPES` as a lookup from the type key. -/
def ENEMY_TYPES (key : String) : Option EnemyConfig :=
  if key = "rocket" then
    some
      { width := 20, height := 12, health := 1, points := 50,
        color := "#e74c3c", glowColor := some "#ff0000",
        behavior := some "straight", speed := some 1, shootChance := some 0,
        waveAmplitude := none, waveSpeed := none }
  else if key = "ufo" then
    some
      { width := 24, height := 14, health := 1, points := 100,
        color := "#9b59b6", glowColor := some "#a855f7",
        behavior := some "wave", speed := some 2, shootChance := some 0.01,
        waveAmplitude := some 40, waveSpeed := some 0.08 }
  else if key = "fighter" then
    some
      { width := 22, height := 10, health := 2, points := 150,
        color := "#3498db", glowColor := some "#60a5fa",
        behavior := some "straight", speed := some 3, shootChance := some 0.02,
        waveAmplitude := none, waveSpeed := none }
  else if key = "bomber" then
    some
      { width := 28, height := 16, health := 3, points := 200,
        color := "#f39c12", glowColor := some "#fbbf24",
        behavior := some "wave", speed := some 1, shootChance := some 0.015,
        waveAmplitude := some 20, waveSpeed := some 0.03 }
  else none

/-- `GROUND_TARGET_TYPES` as a lookup from the type key. -/
def GROUND_TARGET_TYPES (key : String) : Option GroundTargetConfig :=
  if key = "fuelTank" then
    some
      { width := 16, height := 20, points := 150, color := "#22c55e",
        glowColor := some "#4ade80", givesFuel := some true,
        fuelAmount := some 25, shootChance := some 0, floatHeight := some 35 }
  else if key = "rocket" then
    some
      { width := 8, height := 24, points := 80, color := "#ef4444",
        glowColor := some "#f87171", givesFuel := none, fuelAmount := none,
        shootChance := some 0.005, floatHeight := none }
  else if key = "base" then
    some
      { width := 24, height := 16, points := 100, color := "#64748b",
        glowColor := some "#94a3b8", givesFuel := none, fuelAmount := none,
        shootChance := some 0.008, floatHeight := none }
  else if key = "radar" then
    some
      { width := 12, height := 18, points := 120, color := "#06b6d4",
        glowColor := some "#22d3ee", givesFuel := none, fuelAmount := none,
        shootChance := some 0, floatHeight := none }
  else none

/-- A stage configuration record. -/
structure Stage where
  name : String
  baseTopHeight : ℚ
  baseBottomHeight : ℚ
  terrainVariation : ℚ
  enemyDensity : ℚ
  groundTargetDensity : ℚ
  scrollSpeed : ℚ
  enemyTypes : List String
  groundTargetTypes : List String
  length : ℚ
deriving DecidableEq

/-- The `STAGES` table. -/
def STAGES : List Stage :=
  [ { name := "ROCKY CANYON", baseTopHeight := 40, baseBottomHeight := 80,
      terrainVariation := 25, enemyDensity := 0.008,
      groundTargetDensity := 0.012, scrollSpeed := 1.8,
      enemyTypes := ["rocket"],
      groundTargetTypes := ["fuelTank", "fuelTank", "rocket"], length := 1800 },
    { name := "ENEMY BASE", baseTopHeight := 50, baseBottomHeight := 90,
      terrainVariation := 35, enemyDensity := 0.015,
      groundTargetDensity := 0.012, scrollSpeed := 2,
      enemyTypes := ["rocket", "ufo"],
      groundTargetTypes := ["rocket", "base", "fuelTank"], length := 2200 },
    { name := "MISSILE SILOS", baseTopHeight := 60, baseBottomHeight := 100,
      terrainVariation := 45, enemyDensity := 0.022,
      groundTargetDensity := 0.015, scrollSpeed := 2.2,
      enemyTypes := ["rocket", "ufo", "fighter"],
      groundTargetTypes := ["rocket", "base", "radar", "fuelTank"],
      length := 2500 },
    { name := "NARROW CAVES", baseTopHeight := 90, baseBottomHeight := 110,
      terrainVariation := 50, enemyDensity := 0.025,
      groundTargetDensity := 0.01, scrollSpeed := 2.5,
      enemyTypes := ["ufo", "fighter"],
      groundTargetTypes := ["fuelTank", "radar"], length := 2200 },
    { name := "FINAL FORTRESS", baseTopHeight := 80, baseBottomHeight := 100,
      terrainVariation := 45, enemyDensity := 0.035,
      groundTargetDensity := 0.02, scrollSpeed := 2.8,
      enemyTypes := ["ufo", "fighter", "bomber"],
      groundTargetTypes := ["rocket", "base", "radar", "fuelTank"],
      length := 3000 } ]

/-- `getTotalStages`. -/
def getTotalStages : ℕ := STAGES.length

/-- `getStage`: `STAGES[Math.min(index, STAGES.length - 1)]`.  A negative
index indexes the array at a negative position, which in JavaScript yields
`undefined` (modelled as `none`). -/
def getStage (index : ℤ) : Option Stage :=
  listGetInt STAGES (min index ((STAGES.length : ℤ) - 1))

/-! ### Terrain generator (`src/levels.js`, class `TerrainGenerator`) -/

/-- A top/bottom boundary pair as returned by `getBoundsAt`/`getSafeZone`. -/
structure Bounds where
  top : ℚ
  bottom : ℚ
deriving DecidableEq

/-- The state of the procedural terrain generator. -/
structure TerrainGenerator where
  canvasWidth : ℚ
  canvasHeight : ℚ
  config : Stage
  segments : List TerrainSegment
  segmentWidth : ℚ
  noiseOffset : ℚ

/-- `TerrainGenerator.noise`: three sine waves at different frequencies,
normalized; the sine itself is the abstract `env.sin`. -/
def TerrainGenerator.noise (t : TerrainGenerator) (env : Env) (x : ℚ) : ℚ :=
  let sin1 := env.sin (x * 0.02 + t.noiseOffset)
  let sin2 := env.sin (x * 0.05 + t.noiseOffset * 2) * 0.5
  let sin3 := env.sin (x * 0.01 + t.noiseOffset * 0.5) * 0.3
  (sin1 + sin2 + sin3) / 1.8

/-- `TerrainGenerator.createSegment`: heights derived from the noise at the
absolute world x-coordinate. -/
def TerrainGenerator.createSegment (t : TerrainGenerator) (env : Env)
    (x worldX : ℚ) : TerrainSegment :=
  let n := t.noise env worldX
  { x := x, topHeight := t.config.baseTopHeight + n * t.config.terrainVariation,
    bottomHeight := t.config.baseBottomHeight + n * t.config.terrainVariation * 0.8,
    width := t.segmentWidth }

/-- `generateInitialTerrain`: `⌈W / segmentWidth⌉ + 10` segments at
`x = i * segmentWidth`, with `worldX = x`. -/
def TerrainGenerator.generateInitial (t : TerrainGenerator) (env : Env) :
    List TerrainSegment :=
  let numSegments := (⌈t.canvasWidth / t.segmentWidth⌉).toNat + 10
  (List.range numSegments).map fun (i : ℕ) =>
    t.createSegment env ((i : ℚ) * t.segmentWidth) ((i : ℚ) * t.segmentWidth)

/-- The `TerrainGenerator` constructor: draws the random noise phase
offset, then fills the screen with segments. -/
def TerrainGenerator.init (env : Env) (canvasWidth canvasHeight : ℚ)
    (config : Stage) (rng : Rng) : TerrainGenerator × Rng :=
  let (r, rng1) := rng.next
  let base : TerrainGenerator :=
    { canvasWidth := canvasWidth, canvasHeight := canvasHeight,
      config := config, segments := [], segmentWidth := 4,
      noiseOffset := r * 1000 }
  ({ base with segments := base.generateInitial env }, rng1)

/-- `TerrainGenerator.update`: shift every segment left, evict segments
with `x + width` not beyond `-10`, and append one segment after the current
rightmost one while it is inside the visible width plus the 50px margin. -/
def TerrainGenerator.update (t : TerrainGenerator) (env : Env)
    (scrollSpeed worldDistance : ℚ) : TerrainGenerator :=
  let moved := t.segments.map fun s => s.update scrollSpeed
  let kept := moved.filter fun s => decide (s.x + s.width > -10)
  match kept.getLast? with
  | some lastSegment =>
    if lastSegment.x < t.canvasWidth + 50 then
      let newX := lastSegment.x + t.segmentWidth
      let worldX := worldDistance + newX
      { t with segments := kept ++ [t.createSegment env newX worldX] }
    else { t with segments := kept }
  | none => { t with segments := kept }

/-- `TerrainGenerator.getBoundsAt`: the boundary at a screen x, falling
back to the stage base heights when no segment covers it. -/
def TerrainGenerator.getBoundsAt (t : TerrainGenerator) (x : ℚ) : Bounds :=
  match t.segments.find? (fun s => decide (x ≥ s.x ∧ x < s.x + s.width)) with
  | some s => { top := s.topHeight, bottom := t.canvasHeight - s.bottomHeight }
  | none =>
    { top := t.config.baseTopHeight,
      bottom := t.canvasHeight - t.config.baseBottomHeight }

/-- `TerrainGenerator.checkCollision`: the first wall hit reported by any
segment. -/
def TerrainGenerator.checkCollision (t : TerrainGenerator) (e : Entity) :
    Option WallHit :=
  t.segments.findSome? fun s => s.collidesWithEntity e t.canvasHeight

/-- `TerrainGenerator.getSafeZone`: average boundary across the on-screen
segments, with the stage base fallback when none are on screen. -/
def TerrainGenerator.getSafeZone (t : TerrainGenerator) : Bounds :=
  let onScreen := t.segments.filter fun s => decide (s.x ≥ 0 ∧ s.x ≤ t.canvasWidth)
  if onScreen.isEmpty then
    { top := t.config.baseTopHeight,
      bottom := t.canvasHeight - t.config.baseBottomHeight }
  else
    let count : ℚ := onScreen.length
    { top := (onScreen.map (·.topHeight)).sum / count,
      bottom := (onScreen.map (fun s => t.canvasHeight - s.bottomHeight)).sum / count }

/-! ### Spawn manager (`src/levels.js`, class `SpawnManager`) -/

/-- The spawn manager state. -/
structure SpawnManager where
  canvasWidth : ℚ
  canvasHeight : ℚ
  config : Stage
  spawnTimer : ℚ
  groundSpawnTimer : ℚ

/-- The `SpawnManager` constructor. -/
def SpawnManager.init (canvasWidth canvasHeight : ℚ) (config : Stage) :
    SpawnManager :=
  { canvasWidth := canvasWidth, canvasHeight := canvasHeight, config := config,
    spawnTimer := 0, groundSpawnTimer := 0 }

/-- `SpawnManager.spawnEnemy`: picks a type uniformly from the stage list,
then places the enemy just off the right edge inside the safe corridor
(with 10px margins), or returns nothing when the corridor is too narrow or
the type is unknown. -/
def SpawnManager.spawnEnemy (sm : SpawnManager) (env : Env)
    (terrain : TerrainGenerator) (rng : Rng) : Option Enemy × Rng :=
  let (r1, rng1) := rng.next
  let types := sm.config.enemyTypes
  match listGetInt types ⌊r1 * (types.length : ℚ)⌋ with
  | none => (none, rng1)
  | some type =>
    match ENEMY_TYPES type with
    | none => (none, rng1)
    | some config =>
      let x := sm.canvasWidth + 50
      let safeZone := terrain.getSafeZone
      let minY := safeZone.top + 10
      let maxY := safeZone.bottom - config.height - 10
      if maxY ≤ minY then (none, rng1)
      else
        let (r2, rng2) := rng1.next
        let y := minY + r2 * (maxY - minY)
        let (r3, rng3) := rng2.next
        (some (Enemy.init env x y type config r3), rng3)

/-- `SpawnManager.spawnGroundTarget`: anchored to the floor boundary at the
spawn x, lifted by the optional per-type float height. -/
def SpawnManager.spawnGroundTarget (sm : SpawnManager) (_env : Env)
    (terrain : TerrainGenerator) (rng : Rng) : Option GroundTarget × Rng :=
  let (r1, rng1) := rng.next
  let types := sm.config.groundTargetTypes
  match listGetInt types ⌊r1 * (types.length : ℚ)⌋ with
  | none => (none, rng1)
  | some type =>
    match GROUND_TARGET_TYPES type with
    | none => (none, rng1)
    | some config =>
      let x := sm.canvasWidth + 50
      let bounds := terrain.getBoundsAt x
      let floatOffset := orQ config.floatHeight 0
      let y := bounds.bottom - config.height - floatOffset
      (some (GroundTarget.init x y type config), rng1)

/-- The result of one `SpawnManager.update` call. -/
structure SpawnOut where
  enemies : List Enemy
  groundTargets : List GroundTarget
  manager : SpawnManager
  rng : Rng

/-- `SpawnManager.update`: two independent Bernoulli trials against the
stage densities; the `worldDistance` argument is unused, as in the
source. -/
def SpawnManager.update (sm : SpawnManager) (env : Env)
    (terrain : TerrainGenerator) (_worldDistance : ℚ) (rng : Rng) : SpawnOut :=
  let sm1 := { sm with spawnTimer := sm.spawnTimer + 1 }
  let (r1, rng1) := rng.next
  let enemyStep :=
    if r1 < sm1.config.enemyDensity then
      match sm1.spawnEnemy env terrain rng1 with
      | (some e, rngE) => ([e], rngE)
      | (none, rngE) => (([] : List Enemy), rngE)
    else ([], rng1)
  let sm2 := { sm1 with groundSpawnTimer := sm1.groundSpawnTimer + 1 }
  let (r2, rng2) := enemyStep.2.next
  let targetStep :=
    if r2 < sm2.config.groundTargetDensity then
      match sm2.spawnGroundTarget env terrain rng2 with
      | (some t, rngT) => ([t], rngT)
      | (none, rngT) => (([] : List GroundTarget), rngT)
    else ([], rng2)
  { enemies := enemyStep.1, groundTargets := targetStep.1, manager := sm2,
    rng := targetStep.2 }

/-! ### Game controller (`src/game.js`, class `Game`) -/

/-- The game state machine's states. -/
inductive GameState where
  | start_screen
  | playing
  | stage_transition
  | game_over
  | victory
  | paused
deriving DecidableEq

/-- The in-play game state (rendering, DOM and the frame scheduler are
external; `rng` is the `Math.random` stream). -/
structure Game where
  state : GameState
  stateTimer : ℚ
  player : Player
  enemies : List Enemy
  groundTargets : List GroundTarget
  bullets : List Bullet
  bombs : List Bomb
  particles : List Particle
  terrain : TerrainGenerator
  spawnManager : SpawnManager
  score : ℚ
  bestScore : ℚ
  currentStage : ℤ
  distance : ℚ
  scrollSpeed : ℚ
  input : InputState
  canvasWidth : ℚ
  canvasHeight : ℚ
  rng : Rng

/-- `Game.saveBestScore` (the storage write is external; the in-memory
best is kept). -/
def Game.saveBestScore (g : Game) : Game :=
  if g.score > g.bestScore then { g with bestScore := g.score } else g

/-- `Game.setState` plus `onStateEnter` (the `onStateChange` observer is
external). -/
def Game.setState (g : Game) (s : GameState) : Game :=
  let g1 : Game := { g with state := s, stateTimer := 0 }
  match s with
  | .stage_transition => { g1 with stateTimer := 120 }
  | .game_over => g1.saveBestScore
  | .victory => g1.saveBestScore
  | _ => g1

/-- `Game.addScore` (the score observer is external). -/
def Game.addScore (g : Game) (points : ℚ) : Game :=
  { g with score := g.score + points }

/-- `Game.playerHit`: combat-hit resolution — a no-op while invincible;
otherwise explosion, and Game Over once lives are exhausted. -/
def Game.playerHit (env : Env) (g : Game) : Game :=
  let hitRes := g.player.hit
  let g1 : Game := { g with player := hitRes.1 }
  if hitRes.2 then
    let ex := createExplosion env g1.player.toEntity.getCenterX
      g1.player.toEntity.getCenterY "#ff8c00" 15 g1.rng
    let g2 : Game := { g1 with particles := g1.particles ++ ex.1, rng := ex.2 }
    if g2.player.lives ≤ 0 then g2.setState .game_over else g2
  else g1

/-- `Game.playerCrash`: terrain/fuel crash resolution — always decrements
lives; on remaining lives resets position, grants invincibility and floors
fuel at 30; otherwise Game Over. -/
def Game.playerCrash (env : Env) (g : Game) : Game :=
  let ex := createExplosion env g.player.toEntity.getCenterX
    g.player.toEntity.getCenterY "#ff8c00" 20 g.rng
  let g1 : Game := { g with particles := g.particles ++ ex.1, rng := ex.2 }
  let p1 : Player := { g1.player with lives := g1.player.lives - 1 }
  let g2 : Game := { g1 with player := p1 }
  if g2.player.lives ≤ 0 then g2.setState .game_over
  else
    { g2 with
      player :=
        { p1 with
          x := 60, y := g2.canvasHeight / 2 - p1.height / 2,
          isInvincible := true, invincibleTimer := 120,
          fuel := max p1.fuel 30 } }

/-! #### Entity update passes (`updateEnemies` … `updateBombs`) -/

/-- Result of the enemy update pass. -/
structure EnemyPass where
  enemies : List Enemy
  bullets : List Bullet
  rng : Rng

/-- The body of `updateEnemies`: update each active enemy, sample its shoot
trial (a draw per active enemy, even if the update just deactivated it),
and collect the hostile bullets in order. -/
def updateEnemiesAux (env : Env) (scrollSpeed : ℚ) :
    List Enemy → Rng → EnemyPass
  | [], rng => ⟨[], [], rng⟩
  | e :: rest, rng =>
    if e.active then
      let e2 := e.update env scrollSpeed
      let (r, rng1) := rng.next
      let shot := if r < e2.shootChance then [e2.shoot] else []
      let o := updateEnemiesAux env scrollSpeed rest rng1
      ⟨e2 :: o.enemies, shot ++ o.bullets, o.rng⟩
    else
      let o := updateEnemiesAux env scrollSpeed rest rng
      ⟨e :: o.enemies, o.bullets, o.rng⟩

/-- `Game.updateEnemies`: the pass above followed by the eviction of
inactive enemies. -/
def Game.updateEnemies (env : Env) (g : Game) : Game :=
  let o := updateEnemiesAux env g.scrollSpeed g.enemies g.rng
  { g with
    enemies := o.enemies.filter (·.active),
    bullets := g.bullets ++ o.bullets, rng := o.rng }

/-- Result of the ground-target update pass. -/
structure TargetPass where
  targets : List GroundTarget
  bullets : List Bullet
  rng : Rng

/-- The body of `updateGroundTargets`. -/
def updateTargetsAux (scrollSpeed : ℚ) :
    List GroundTarget → Rng → TargetPass
  | [], rng => ⟨[], [], rng⟩
  | t :: rest, rng =>
    if t.active then
      let t2 := t.update scrollSpeed
      let (r, rng1) := rng.next
      let shot := if r < t2.shootChance then [t2.shoot] else []
      let o := updateTargetsAux scrollSpeed rest rng1
      ⟨t2 :: o.targets, shot ++ o.bullets, o.rng⟩
    else
      let o := updateTargetsAux scrollSpeed rest rng
      ⟨t :: o.targets, o.bullets, o.rng⟩

/-- `Game.updateGroundTargets`. -/
def Game.updateGroundTargets (g : Game) : Game :=
  let o := updateTargetsAux g.scrollSpeed g.groundTargets g.rng
  { g with
    groundTargets := o.targets.filter (·.active),
    bullets := g.bullets ++ o.bullets, rng := o.rng }

/-- `Game.updateBullets`: kinematics then eviction. -/
def Game.updateBullets (g : Game) : Game :=
  { g with
    bullets := (g.bullets.map fun b => b.update g.canvasWidth g.canvasHeight).filter
      (·.active) }

/-- Result of the bomb update pass. -/
structure BombPass where
  bombs : List Bomb
  particles : List Particle
  rng : Rng

/-- The body of `updateBombs`: kinematics, then the per-bomb terrain test
with a 6-particle burst on wall impact. -/
def updateBombsAux (env : Env) (t : TerrainGenerator) (W H : ℚ) :
    List Bomb → Rng → BombPass
  | [], rng => ⟨[], [], rng⟩
  | b :: rest, rng =>
    let b2 := b.update W H
    if (t.checkCollision b2.toEntity).isSome then
      let ex := createExplosion env b2.toEntity.getCenterX
        b2.toEntity.getCenterY b2.color 6 rng
      let o := updateBombsAux env t W H rest ex.2
      ⟨{ b2 with active := false } :: o.bombs, ex.1 ++ o.particles, o.rng⟩
    else
      let o := updateBombsAux env t W H rest rng
      ⟨b2 :: o.bombs, o.particles, o.rng⟩

/-- `Game.updateBombs`. -/
def Game.updateBombs (env : Env) (g : Game) : Game :=
  let o := updateBombsAux env g.terrain g.canvasWidth g.canvasHeight g.bombs g.rng
  { g with
    bombs := o.bombs.filter (·.active),
    particles := g.particles ++ o.particles, rng := o.rng }

/-! #### Collision resolution (`Game.checkCollisions`), in the source's
five-phase order -/

/-- Damage the first active enemy the bullet overlaps (in list order),
returning the updated list, the struck enemy and whether it was
destroyed. -/
def damageFirst (b : Bullet) : List Enemy → Option (List Enemy × Enemy × Bool)
  | [] => none
  | e :: rest =>
    if e.active ∧ b.toEntity.collidesWith e.toEntity then
      let dmg := e.takeDamage b.damage
      some (dmg.1 :: rest, dmg.1, dmg.2)
    else
      match damageFirst b rest with
      | some (es, he, d) => some (e :: es, he, d)
      | none => none

/-- Output of the bullet-vs-enemy phase. -/
structure P1Out where
  bullets : List Bullet
  enemies : List Enemy
  score : ℚ
  particles : List Particle
  rng : Rng

/-- Phase 1 body: player bullets vs enemies; each bullet deactivates on
its first hit, destroyed enemies award points and a 10-particle burst. -/
def p1Aux (env : Env) : List Bullet → List Enemy → ℚ → List Particle → Rng → P1Out
  | [], es, sc, ps, rng => ⟨[], es, sc, ps, rng⟩
  | b :: rest, es, sc, ps, rng =>
    if b.isPlayerBullet ∧ b.active then
      match damageFirst b es with
      | some (es2, he, destroyed) =>
        let b2 : Bullet := { b with active := false }
        if destroyed then
          let ex := createExplosion env he.toEntity.getCenterX
            he.toEntity.getCenterY he.color 10 rng
          let o := p1Aux env rest es2 (sc + he.points) (ps ++ ex.1) ex.2
          ⟨b2 :: o.bullets, o.enemies, o.score, o.particles, o.rng⟩
        else
          let o := p1Aux env rest es2 sc ps rng
          ⟨b2 :: o.bullets, o.enemies, o.score, o.particles, o.rng⟩
      | none =>
        let o := p1Aux env rest es sc ps rng
        ⟨b :: o.bullets, o.enemies, o.score, o.particles, o.rng⟩
    else
      let o := p1Aux env rest es sc ps rng
      ⟨b :: o.bullets, o.enemies, o.score, o.particles, o.rng⟩

/-- Phase 1 applied to the game state. -/
def Game.phase1 (env : Env) (g : Game) : Game :=
  let o := p1Aux env g.bullets g.enemies g.score g.particles g.rng
  { g with
    bullets := o.bullets, enemies := o.enemies, score := o.score,
    particles := o.particles, rng := o.rng }

/-- Deactivate the first active ground target the attacker overlaps,
returning the updated list and the struck target. -/
def killFirstTarget (a : Entity) :
    List GroundTarget → Option (List GroundTarget × GroundTarget)
  | [] => none
  | t :: rest =>
    if t.active ∧ a.collidesWith t.toEntity then
      some ({ t with active := false } :: rest, t)
    else
      match killFirstTarget a rest with
      | some (ts, ht) => some (t :: ts, ht)
      | none => none

/-- Output of the bomb-vs-target and bullet-vs-target phases. -/
structure P2Out where
  bombs : List Bomb
  targets : List GroundTarget
  player : Player
  score : ℚ
  particles : List Particle
  rng : Rng

/-- Phase 2 body: bombs vs ground targets; both deactivate, points are
awarded with a 12-particle burst, and fuel targets refill the player. -/
def p2Aux (env : Env) :
    List Bomb → List GroundTarget → Player → ℚ → List Particle → Rng → P2Out
  | [], ts, p, sc, ps, rng => ⟨[], ts, p, sc, ps, rng⟩
  | b :: rest, ts, p, sc, ps, rng =>
    if b.active then
      match killFirstTarget b.toEntity ts with
      | some (ts2, ht) =>
        let b2 : Bomb := { b with active := false }
        let ex := createExplosion env ht.toEntity.getCenterX
          ht.toEntity.getCenterY ht.color 12 rng
        let p2 := if ht.givesFuel then p.addFuel ht.fuelAmount else p
        let o := p2Aux env rest ts2 p2 (sc + ht.points) (ps ++ ex.1) ex.2
        ⟨b2 :: o.bombs, o.targets, o.player, o.score, o.particles, o.rng⟩
      | none =>
        let o := p2Aux env rest ts p sc ps rng
        ⟨b :: o.bombs, o.targets, o.player, o.score, o.particles, o.rng⟩
    else
      let o := p2Aux env rest ts p sc ps rng
      ⟨b :: o.bombs, o.targets, o.player, o.score, o.particles, o.rng⟩

/-- Phase 2 applied to the game state. -/
def Game.phase2 (env : Env) (g : Game) : Game :=
  let o := p2Aux env g.bombs g.groundTargets g.player g.score g.particles g.rng
  { g with
    bombs := o.bombs, groundTargets := o.targets, player := o.player,
    score := o.score, particles := o.particles, rng := o.rng }

/-- Output of the bullet-vs-target phase. -/
structure P3Out where
  bullets : List Bullet
  targets : List GroundTarget
  player : Player
  score : ℚ
  particles : List Particle
  rng : Rng

/-- Phase 3 body: player bullets vs ground targets (default 10-particle
burst). -/
def p3Aux (env : Env) :
    List Bullet → List GroundTarget → Player → ℚ → List Particle → Rng → P3Out
  | [], ts, p, sc, ps, rng => ⟨[], ts, p, sc, ps, rng⟩
  | b :: rest, ts, p, sc, ps, rng =>
    if b.isPlayerBullet ∧ b.active then
      match killFirstTarget b.toEntity ts with
      | some (ts2, ht) =>
        let b2 : Bullet := { b with active := false }
        let ex := createExplosion env ht.toEntity.getCenterX
          ht.toEntity.getCenterY ht.color 10 rng
        let p2 := if ht.givesFuel then p.addFuel ht.fuelAmount else p
        let o := p3Aux env rest ts2 p2 (sc + ht.points) (ps ++ ex.1) ex.2
        ⟨b2 :: o.bullets, o.targets, o.player, o.score, o.particles, o.rng⟩
      | none =>
        let o := p3Aux env rest ts p sc ps rng
        ⟨b :: o.bullets, o.targets, o.player, o.score, o.particles, o.rng⟩
    else
      let o := p3Aux env rest ts p sc ps rng
      ⟨b :: o.bullets, o.targets, o.player, o.score, o.particles, o.rng⟩

/-- Phase 3 applied to the game state. -/
def Game.phase3 (env : Env) (g : Game) : Game :=
  let o := p3Aux env g.bullets g.groundTargets g.player g.score g.particles g.rng
  { g with
    bullets := o.bullets, groundTargets := o.targets, player := o.player,
    score := o.score, particles := o.particles, rng := o.rng }

/-- Phase 4 scan: find the first active hostile bullet overlapping the
player, deactivate it and stop (the loop breaks, so later bullets are left
untouched). -/
def hostileScan (pe : Entity) : List Bullet → List Bullet × Bool
  | [] => ([], false)
  | b :: rest =>
    if b.isPlayerBullet ∨ ¬b.active then
      let o := hostileScan pe rest
      (b :: o.1, o.2)
    else if b.toEntity.collidesWith pe then
      ({ b with active := false } :: rest, true)
    else
      let o := hostileScan pe rest
      (b :: o.1, o.2)

/-- Phase 4 applied to the game state: enemy bullets vs the player. -/
def Game.phase4 (env : Env) (g : Game) : Game :=
  let o := hostileScan g.player.toEntity g.bullets
  let g1 : Game := { g with bullets := o.1 }
  if o.2 then g1.playerHit env else g1

/-- Phase 5 scan: find the first active enemy overlapping the player,
deactivate it and stop, reporting the struck enemy. -/
def bodyScan (pe : Entity) : List Enemy → List Enemy × Option Enemy
  | [] => ([], none)
  | e :: rest =>
    if ¬e.active then
      let o := bodyScan pe rest
      (e :: o.1, o.2)
    else if pe.collidesWith e.toEntity then
      ({ e with active := false } :: rest, some e)
    else
      let o := bodyScan pe rest
      (e :: o.1, o.2)

/-- Phase 5 applied to the game state: player body vs enemies (explosion
burst, then player-hit resolution). -/
def Game.phase5 (env : Env) (g : Game) : Game :=
  let o := bodyScan g.player.toEntity g.enemies
  match o.2 with
  | some e =>
    let ex := createExplosion env e.toEntity.getCenterX e.toEntity.getCenterY
      e.color 10 g.rng
    Game.playerHit env
      { g with enemies := o.1, particles := g.particles ++ ex.1, rng := ex.2 }
  | none => { g with enemies := o.1 }

/-- `Game.checkCollisions`: the five category phases in source order. -/
def Game.checkCollisions (env : Env) (g : Game) : Game :=
  ((((g.phase1 env).phase2 env).phase3 env).phase4 env).phase5 env

/-! #### The `updatePlaying` frame pipeline -/

/-- Distance accumulation (`this.distance += this.scrollSpeed`). -/
def Game.stepDistance (g : Game) : Game :=
  { g with distance := g.distance + g.scrollSpeed }

/-- Terrain scroll/regeneration for this frame. -/
def Game.stepTerrain (env : Env) (g : Game) : Game :=
  { g with terrain := g.terrain.update env g.scrollSpeed g.distance }

/-- Player kinematics against this frame's safe zone. -/
def Game.stepPlayer (g : Game) : Game :=
  let safeZone := g.terrain.getSafeZone
  { g with player := g.player.update g.input safeZone.top safeZone.bottom }

/-- Player shooting on input. -/
def Game.stepShoot (g : Game) : Game :=
  if g.input.shoot then
    let s := g.player.shoot
    match s.2 with
    | some b => { g with player := s.1, bullets := g.bullets ++ [b] }
    | none => { g with player := s.1 }
  else g

/-- Player bombing on input. -/
def Game.stepBomb (g : Game) : Game :=
  if g.input.bomb then
    let s := g.player.bomb
    match s.2 with
    | some b => { g with player := s.1, bombs := g.bombs ++ [b] }
    | none => { g with player := s.1 }
  else g

/-- Probabilistic spawning, merged into live storage. -/
def Game.stepSpawn (env : Env) (g : Game) : Game :=
  let o := g.spawnManager.update env g.terrain g.distance g.rng
  { g with
    enemies := g.enemies ++ o.enemies,
    groundTargets := g.groundTargets ++ o.groundTargets,
    spawnManager := o.manager, rng := o.rng }

/-- Everything `updatePlaying` does before the crash checks: distance,
terrain, player, firing, spawning, entity kinematics, and collision
resolution, in source order. -/
def Game.updatePrefix (env : Env) (g : Game) : Game :=
  (((((((((g.stepDistance).stepTerrain env).stepPlayer).stepShoot).stepBomb).stepSpawn
    env).updateEnemies env).updateGroundTargets.updateBullets.updateBombs
    env).checkCollisions env)

/-- `Game.updatePlaying`: the full PLAYING-state frame.  After the pipeline,
a terrain strike or exhausted fuel resolves as a crash (and ends the frame);
otherwise reaching the stage length enters the stage transition.  The stage
record is looked up from the frame's current stage index; for an index with
no stage record the source would fault on the final length check, which is
modelled as leaving the state unchanged (unreachable for valid indices). -/
def Game.updatePlaying (env : Env) (g : Game) : Game :=
  let stageConfig := getStage g.currentStage
  let m := g.updatePrefix env
  if (m.terrain.checkCollision m.player.toEntity).isSome then m.playerCrash env
  else if m.player.fuel ≤ 0 then m.playerCrash env
  else
    match stageConfig with
    | some cfg =>
      if m.distance ≥ cfg.length then m.setState .stage_transition else m
    | none => m

/-! ## Shared concrete fixtures used by witnesses and scenarios -/

/-- A mathematical environment whose `sin`/`cos` are identically zero (the
claims hold for every environment; this one makes the noise vanish). -/
def env0 : Env := ⟨fun _ => 0, fun _ => 0, 0⟩

/-- A random stream that always draws `1/2` (below no density threshold of
any stage, so no spawns fire). -/
def rngHalf : Rng := ⟨fun _ => (1 : ℚ)/2, 0⟩

/-- The first stage record (`STAGES[0]`). -/
def stage0 : Stage := STAGES.head (by unfold STAGES; exact List.cons_ne_nil _ _)

/-- A fully active test entity. -/
def entA : Entity := ⟨0, 0, 10, 10, true⟩

/-- An inactive test entity overlapping `entA`. -/
def entB : Entity := ⟨5, 5, 10, 10, false⟩

/-- A one-segment terrain generator used by the C7 witness. -/
def tC7 : TerrainGenerator :=
  { canvasWidth := 800, canvasHeight := 600, config := stage0,
    segments := [⟨0, 40, 80, 4⟩], segmentWidth := 4, noiseOffset := 0 }

/-- The state produced by a non-ignored combat hit, before the possible
Game Over transition (proof-side factoring of `playerHit`). -/
def hitOutcome (env : Env) (g : Game) : Game :=
  let p : Player :=
    { g.player with
      lives := g.player.lives - 1, isInvincible := true,
      invincibleTimer := g.player.invincibleDuration }
  let ex := createExplosion env p.toEntity.getCenterX p.toEntity.getCenterY
    "#ff8c00" 15 g.rng
  { g with player := p, particles := g.particles ++ ex.1, rng := ex.2 }

/-- The state after the crash explosion and the life decrement, before the
branch on remaining lives (proof-side factoring of `playerCrash`). -/
def crashOutcome (env : Env) (g : Game) : Game :=
  let ex := createExplosion env g.player.toEntity.getCenterX
    g.player.toEntity.getCenterY "#ff8c00" 20 g.rng
  { g with
    player := { g.player with lives := g.player.lives - 1 },
    particles := g.particles ++ ex.1, rng := ex.2 }

/-- An empty-terrain generator for the C1 witness. -/
def tC1 : TerrainGenerator :=
  { canvasWidth := 800, canvasHeight := 600, config := stage0,
    segments := [], segmentWidth := 4, noiseOffset := 0 }

/-- C1 witness game state: playing, empty entity storage, fuel already at
zero, spawn rolls that never fire. -/
def gC1 : Game :=
  { state := .playing, stateTimer := 0,
    player := { Player.init 800 600 with fuel := 0 },
    enemies := [], groundTargets := [], bullets := [], bombs := [],
    particles := [], terrain := tC1,
    spawnManager := SpawnManager.init 800 600 stage0,
    score := 0, bestScore := 0, currentStage := 0, distance := 0,
    scrollSpeed := 1.8, input := input0, canvasWidth := 800,
    canvasHeight := 600, rng := rngHalf }

/-- The mid-frame state of the C1 witness frame. -/
def mC1 : Game := gC1.updatePrefix env0

/-- A playing game state whose player is invincible (timer mid-window). -/
def gC2 : Game :=
  { gC1 with
    player :=
      { Player.init 800 600 with isInvincible := true, invincibleTimer := 60 } }

/-- A player who has exhausted all lives. -/
def p9 : Player := { Player.init 800 600 with lives := 0 }

/-- A terrain generator whose only segment sits with its trailing edge
exactly at the eviction boundary after a 2-pixel shift. -/
def tC4 : TerrainGenerator :=
  { canvasWidth := 800, canvasHeight := 600, config := stage0,
    segments := [⟨-12, 40, 80, 4⟩], segmentWidth := 4, noiseOffset := 0 }

/-- A one-segment terrain generator for the C4 amended witness. -/
def tC4w : TerrainGenerator :=
  { canvasWidth := 800, canvasHeight := 600, config := stage0,
    segments := [⟨0, 40, 80, 4⟩], segmentWidth := 4, noiseOffset := 0 }

/-- The enemy type whose configuration the first draw of `spawnEnemy`
selects out of `sm.config.enemyTypes`. -/
def selectedEnemyConfig (sm : SpawnManager) (rng : Rng) : Option EnemyConfig :=
  match listGetInt sm.config.enemyTypes
      ⌊rng.seq rng.k * (sm.config.enemyTypes.length : ℚ)⌋ with
  | none => none
  | some ty => ENEMY_TYPES ty

/-- The `ENEMY_TYPES.rocket` record (used to instantiate the C6 witness). -/
def rocketConfig : EnemyConfig :=
  { width := 20, height := 12, health := 1, points := 50,
    color := "#e74c3c", glowColor := some "#ff0000",
    behavior := some "straight", speed := some 1, shootChance := some 0,
    waveAmplitude := none, waveSpeed := none }

/-- A narrow-corridor terrain for the C6 witness: a single on-screen
segment leaves a 100px-to-100px corridor in a 200px-high canvas. -/
def tC6 : TerrainGenerator :=
  { canvasWidth := 800, canvasHeight := 200, config := stage0,
    segments := [⟨0, 100, 100, 4⟩], segmentWidth := 4, noiseOffset := 0 }

/-- The spawn manager for the C6 witness (stage-0 configuration). -/
def smC6 : SpawnManager := SpawnManager.init 800 200 stage0

/-- The bullet-ownership flag as a named predicate (a bullet with `isPB`
false is a hostile bullet). -/
def isPB (b : Bullet) : Bool := b.isPlayerBullet

/-- The player of the fuel-exhaustion scenario after `n` frames: untouched
except for the fuel drained by `n` updates (`0.05 = 1/20` per frame). -/
def scenarioPlayer (n : ℕ) : Player :=
  { Player.init 800 600 with fuel := 100 - n * (1/20) }

/-- The terrain of the fuel-exhaustion scenario at frame 0, built by the
`TerrainGenerator` constructor on an 800×600 canvas. -/
def tScen : TerrainGenerator :=
  (TerrainGenerator.init env0 800 600 stage0 rngHalf).1

/-- The random stream right after terrain construction in the scenario. -/
def rngScen : Rng := (TerrainGenerator.init env0 800 600 stage0 rngHalf).2

/-- The fuel-exhaustion scenario's fresh game: the state `Game.start`
produces on an 800×600 canvas with the all-zero math environment and the
constant-1/2 random stream (which never passes a spawn trial). -/
def gScen : Game :=
  { state := .playing, stateTimer := 0, player := Player.init 800 600,
    enemies := [], groundTargets := [], bullets := [], bombs := [],
    particles := [], terrain := tScen,
    spawnManager := SpawnManager.init 800 600 stage0,
    score := 0, bestScore := 0, currentStage := 0, distance := 0,
    scrollSpeed := stage0.scrollSpeed, input := input0, canvasWidth := 800,
    canvasHeight := 600, rng := rngScen }

/-- Frame invariant of the fuel-exhaustion scenario: after `n` frames the
player is the fresh player with `n` frames of fuel drained, all entity
storage is empty, the stage/scroll/canvas data is that of stage 0, the
random stream still always draws 1/2, and every terrain segment is a
4-wide slice with the stage-0 base heights with the rightmost one at
`x ≥ 836`. -/
structure ScenInv (n : ℕ) (g : Game) : Prop where
  player_eq : g.player = scenarioPlayer n
  enemies_eq : g.enemies = []
  targets_eq : g.groundTargets = []
  bullets_eq : g.bullets = []
  bombs_eq : g.bombs = []
  stage_eq : g.currentStage = 0
  scroll_eq : g.scrollSpeed = 9/5
  dist_eq : g.distance = n * (9/5)
  cw_eq : g.canvasWidth = 800
  ch_eq : g.canvasHeight = 600
  input_eq : g.input = input0
  seq_eq : g.rng.seq = fun _ => (1 : ℚ)/2
  tcw : g.terrain.canvasWidth = 800
  tch : g.terrain.canvasHeight = 600
  tcfg : g.terrain.config = stage0
  tsw : g.terrain.segmentWidth = 4
  segs_all : ∀ s ∈ g.terrain.segments,
    s.topHeight = 40 ∧ s.bottomHeight = 80 ∧ s.width = 4
  segs_last : ∃ l, g.terrain.segments.getLast? = some l ∧ 836 ≤ l.x
  sm_cfg : g.spawnManager.config = stage0

/-! ## Generic list helper lemmas -/

/-- `findSome?` over a list on which the function is everywhere `none`. -/
theorem findSome?_none_of {α β : Type} (f : α → Option β) :
    ∀ l : List α, (∀ a ∈ l, f a = none) → l.findSome? f = none
  | [], _ => rfl
  | a :: l, h => by
    rw [List.findSome?_cons]
    rw [h a (List.mem_cons_self a l)]
    exact findSome?_none_of f l fun b hb => h b (List.mem_cons_of_mem a hb)

/-- The last element survives `filter` when it satisfies the predicate, and
stays last. -/
theorem getLast?_filter {α : Type} (p : α → Bool) :
    ∀ (l : List α) (a : α), l.getLast? = some a → p a = true →
      (l.filter p).getLast? = some a := by
  intro l
  induction l with
  | nil => intro a h _; cases h
  | cons x xs ih =>
    intro a h hp
    cases xs with
    | nil =>
      have hxa : x = a := by simpa using h
      subst hxa
      rw [List.filter_cons_of_pos hp]
      simp
    | cons y ys =>
      rw [List.getLast?_cons_cons] at h
      have htail := ih a h hp
      have hne : (y :: ys).filter p ≠ [] := by
        intro hemp
        rw [hemp] at htail
        cases htail
      cases hfx : p x with
      | true =>
        rw [List.filter_cons_of_pos hfx]
        cases hcons : (y :: ys).filter p with
        | nil => exact absurd hcons hne
        | cons z zs =>
          rw [hcons] at htail
          rw [List.getLast?_cons_cons]
          exact htail
      | false => rw [List.filter_cons_of_neg (by simp [hfx])]; exact htail

/-- `getLast?` commutes with `map`. -/
theorem getLast?_map_eq {α β : Type} (f : α → β) :
    ∀ l : List α, (l.map f).getLast? = l.getLast?.map f := by
  intro l
  induction l with
  | nil => rfl
  | cons x xs ih =>
    cases xs with
    | nil => rfl
    | cons y ys =>
      rw [List.map_cons, List.map_cons, List.getLast?_cons_cons, ← List.map_cons,
        List.getLast?_cons_cons]
      exact ih

/-! ## C5 — collision symmetry -/

/-- C5: `collidesWith` is symmetric, and both directions are `false`
whenever either operand is inactive. -/
theorem collidesWith_symm (a b : Entity) :
    a.collidesWith b = b.collidesWith a ∧
      ((a.active = false ∨ b.active = false) →
        a.collidesWith b = false ∧ b.collidesWith a = false) := by
  constructor
  · unfold Entity.collidesWith Entity.getBounds
    by_cases ha : a.active
    · by_cases hb : b.active
      · rw [if_neg (by simp [ha, hb]), if_neg (by simp [ha, hb])]
        rw [decide_eq_decide]
        constructor <;> rintro ⟨h1, h2, h3, h4⟩ <;> exact ⟨h2, h1, h4, h3⟩
      · rw [if_pos (by simp [hb]), if_pos (by simp [hb])]
    · rw [if_pos (by simp [ha]), if_pos (by simp [ha])]
  · rintro (h | h) <;>
      constructor <;>
      unfold Entity.collidesWith <;>
      simp [h]

/-- Witness for C5 at concrete entities. -/
theorem collidesWith_symm_witness :
    (entA.active = false ∨ entB.active = false) ∧
      entA.collidesWith entB = entB.collidesWith entA ∧
      (entA.collidesWith entB = false ∧ entB.collidesWith entA = false) :=
  ⟨Or.inr rfl, (collidesWith_symm entA entB).1,
    (collidesWith_symm entA entB).2 (Or.inr rfl)⟩

/-! ## C7 — terrain bounds fallback -/

/-- C7: `getBoundsAt` returns a covering segment's boundary when one
exists and the stage base fallback when none does (it is total, hence
never errors). -/
theorem getBoundsAt_covers_or_falls_back (t : TerrainGenerator) (x : ℚ) :
    ((∃ s ∈ t.segments, s.x ≤ x ∧ x < s.x + s.width) →
      ∃ s ∈ t.segments, (s.x ≤ x ∧ x < s.x + s.width) ∧
        t.getBoundsAt x = ⟨s.topHeight, t.canvasHeight - s.bottomHeight⟩) ∧
    ((∀ s ∈ t.segments, ¬(s.x ≤ x ∧ x < s.x + s.width)) →
      t.getBoundsAt x =
        ⟨t.config.baseTopHeight, t.canvasHeight - t.config.baseBottomHeight⟩) := by
  constructor
  · intro hex
    cases hfind : t.segments.find? (fun s => decide (x ≥ s.x ∧ x < s.x + s.width)) with
    | none =>
      exfalso
      obtain ⟨s, hs, h1, h2⟩ := hex
      have := List.find?_eq_none.mp hfind s hs
      simp only [decide_eq_true_eq] at this
      exact this ⟨h1, h2⟩
    | some s =>
      refine ⟨s, List.mem_of_find?_eq_some hfind, ?_, ?_⟩
      · have := List.find?_some hfind
        simp only [decide_eq_true_eq] at this
        exact ⟨this.1, this.2⟩
      · unfold TerrainGenerator.getBoundsAt
        rw [hfind]
  · intro hall
    cases hfind : t.segments.find? (fun s => decide (x ≥ s.x ∧ x < s.x + s.width)) with
    | none =>
      unfold TerrainGenerator.getBoundsAt
      rw [hfind]
    | some s =>
      exfalso
      have hp := List.find?_some hfind
      simp only [decide_eq_true_eq] at hp
      exact hall s (List.mem_of_find?_eq_some hfind) ⟨hp.1, hp.2⟩

/-- Witness for C7: a covered query and an uncovered (fallback) query. -/
theorem getBoundsAt_witness :
    (∃ s ∈ tC7.segments, s.x ≤ 2 ∧ 2 < s.x + s.width) ∧
      (∃ s ∈ tC7.segments, (s.x ≤ 2 ∧ 2 < s.x + s.width) ∧
        tC7.getBoundsAt 2 = ⟨s.topHeight, tC7.canvasHeight - s.bottomHeight⟩) ∧
      (∀ s ∈ tC7.segments, ¬(s.x ≤ 99 ∧ 99 < s.x + s.width)) ∧
      tC7.getBoundsAt 99 =
        ⟨tC7.config.baseTopHeight, tC7.canvasHeight - tC7.config.baseBottomHeight⟩ := by
  have hcov : ∃ s ∈ tC7.segments, s.x ≤ 2 ∧ 2 < s.x + s.width := by
    refine ⟨⟨0, 40, 80, 4⟩, by simp [tC7], by norm_num, by norm_num⟩
  have hmiss : ∀ s ∈ tC7.segments, ¬(s.x ≤ 99 ∧ 99 < s.x + s.width) := by
    intro s hs
    simp only [tC7, List.mem_singleton] at hs
    subst hs
    norm_num
  exact ⟨hcov, (getBoundsAt_covers_or_falls_back tC7 2).1 hcov, hmiss,
    (getBoundsAt_covers_or_falls_back tC7 99).2 hmiss⟩

/-! ## C8 — stage-index clamping -/

/-- C8 counterexample: it is not true that every integer index yields a
stage record — a negative index indexes the table at a negative position
and gets nothing. -/
theorem getStage_not_total :
    ¬ (∀ index : ℤ, ∃ s, getStage index = some s) := by
  intro h
  obtain ⟨s, hs⟩ := h (-1)
  rw [show getStage (-1) = none by decide] at hs
  cases hs

/-- C8 (amended): for every nonnegative index `getStage` returns a stage
record, and indices at or beyond the table length are clamped to the final
record. -/
theorem getStage_clamps (index : ℤ) (h : 0 ≤ index) :
    (∃ s, getStage index = some s) ∧
      ((STAGES.length : ℤ) ≤ index → getStage index = STAGES.getLast?) := by
  have hlen : STAGES.length = 5 := by decide
  constructor
  · unfold getStage listGetInt
    have h0 : (0 : ℤ) ≤ min index ((STAGES.length : ℤ) - 1) := by
      refine le_min h ?_
      rw [hlen]; decide
    rw [if_neg (by omega)]
    have hle : min index ((STAGES.length : ℤ) - 1) ≤ (STAGES.length : ℤ) - 1 :=
      min_le_right _ _
    have hlt : (min index ((STAGES.length : ℤ) - 1)).toNat < STAGES.length := by
      omega
    exact ⟨_, List.get?_eq_get hlt⟩
  · intro hge
    have hmin : min index ((STAGES.length : ℤ) - 1) = (STAGES.length : ℤ) - 1 :=
      min_eq_right (by omega)
    unfold getStage
    rw [hmin, hlen]
    norm_num [listGetInt]
    rfl

/-- Witness for C8 (amended) at the over-range index 7. -/
theorem getStage_clamps_witness :
    (0 : ℤ) ≤ 7 ∧
      ((∃ s, getStage 7 = some s) ∧
        ((STAGES.length : ℤ) ≤ 7 → getStage 7 = STAGES.getLast?)) :=
  ⟨by decide, getStage_clamps 7 (by decide)⟩

/-! ## Projection lemmas for the state machine helpers -/

/-- `setState` preserves the player. -/
@[simp] theorem setState_player (g : Game) (s : GameState) :
    (g.setState s).player = g.player := by
  cases s <;> simp [Game.setState, Game.saveBestScore] <;> split <;> rfl

/-- `setState` preserves the enemy list. -/
@[simp] theorem setState_enemies (g : Game) (s : GameState) :
    (g.setState s).enemies = g.enemies := by
  cases s <;> simp [Game.setState, Game.saveBestScore] <;> split <;> rfl

/-- `setState` preserves the ground-target list. -/
@[simp] theorem setState_groundTargets (g : Game) (s : GameState) :
    (g.setState s).groundTargets = g.groundTargets := by
  cases s <;> simp [Game.setState, Game.saveBestScore] <;> split <;> rfl

/-- `setState` preserves the bullet list. -/
@[simp] theorem setState_bullets (g : Game) (s : GameState) :
    (g.setState s).bullets = g.bullets := by
  cases s <;> simp [Game.setState, Game.saveBestScore] <;> split <;> rfl

/-- `setState` preserves the bomb list. -/
@[simp] theorem setState_bombs (g : Game) (s : GameState) :
    (g.setState s).bombs = g.bombs := by
  cases s <;> simp [Game.setState, Game.saveBestScore] <;> split <;> rfl

/-- `setState` preserves the score. -/
@[simp] theorem setState_score (g : Game) (s : GameState) :
    (g.setState s).score = g.score := by
  cases s <;> simp [Game.setState, Game.saveBestScore] <;> split <;> rfl

/-- `setState` preserves the stage index. -/
@[simp] theorem setState_currentStage (g : Game) (s : GameState) :
    (g.setState s).currentStage = g.currentStage := by
  cases s <;> simp [Game.setState, Game.saveBestScore] <;> split <;> rfl

/-- `setState` preserves the distance. -/
@[simp] theorem setState_distance (g : Game) (s : GameState) :
    (g.setState s).distance = g.distance := by
  cases s <;> simp [Game.setState, Game.saveBestScore] <;> split <;> rfl

/-- `setState` preserves the scroll speed. -/
@[simp] theorem setState_scrollSpeed (g : Game) (s : GameState) :
    (g.setState s).scrollSpeed = g.scrollSpeed := by
  cases s <;> simp [Game.setState, Game.saveBestScore] <;> split <;> rfl

/-- `setState` preserves the input struct. -/
@[simp] theorem setState_input (g : Game) (s : GameState) :
    (g.setState s).input = g.input := by
  cases s <;> simp [Game.setState, Game.saveBestScore] <;> split <;> rfl

/-- `setState` preserves the canvas width. -/
@[simp] theorem setState_canvasWidth (g : Game) (s : GameState) :
    (g.setState s).canvasWidth = g.canvasWidth := by
  cases s <;> simp [Game.setState, Game.saveBestScore] <;> split <;> rfl

/-- `setState` preserves the canvas height. -/
@[simp] theorem setState_canvasHeight (g : Game) (s : GameState) :
    (g.setState s).canvasHeight = g.canvasHeight := by
  cases s <;> simp [Game.setState, Game.saveBestScore] <;> split <;> rfl

/-- `setState` preserves the random stream. -/
@[simp] theorem setState_rng (g : Game) (s : GameState) :
    (g.setState s).rng = g.rng := by
  cases s <;> simp [Game.setState, Game.saveBestScore] <;> split <;> rfl

/-- `setState` preserves the terrain. -/
@[simp] theorem setState_terrain (g : Game) (s : GameState) :
    (g.setState s).terrain = g.terrain := by
  cases s <;> simp [Game.setState, Game.saveBestScore] <;> split <;> rfl

/-- `setState` preserves the spawn manager. -/
@[simp] theorem setState_spawnManager (g : Game) (s : GameState) :
    (g.setState s).spawnManager = g.spawnManager := by
  cases s <;> simp [Game.setState, Game.saveBestScore] <;> split <;> rfl

/-- `setState` preserves the particle list. -/
@[simp] theorem setState_particles (g : Game) (s : GameState) :
    (g.setState s).particles = g.particles := by
  cases s <;> simp [Game.setState, Game.saveBestScore] <;> split <;> rfl

/-- `setState` installs the requested state. -/
theorem setState_state (g : Game) (s : GameState) : (g.setState s).state = s := by
  cases s <;> simp [Game.setState, Game.saveBestScore] <;> split <;> rfl

/-- `Player.update` never touches `lives`. -/
theorem Player.update_lives (p : Player) (input : InputState) (tb bb : ℚ) :
    (p.update input tb bb).lives = p.lives := rfl

/-- `Player.shoot` never touches `lives`. -/
theorem Player.shoot_lives (p : Player) : (p.shoot).1.lives = p.lives := by
  unfold Player.shoot; split <;> rfl

/-- `Player.bomb` never touches `lives`. -/
theorem Player.bomb_lives (p : Player) : (p.bomb).1.lives = p.lives := by
  unfold Player.bomb; split <;> rfl

/-- `Player.hit` never increases `lives`. -/
theorem Player.hit_lives (p : Player) : (p.hit).1.lives ≤ p.lives := by
  unfold Player.hit
  split
  · exact le_refl _
  · simp only []
    linarith [le_refl p.lives]

/-- `Player.hit` only touches `lives`, `isInvincible` and
`invincibleTimer`. -/
theorem Player.hit_keeps (p : Player) :
    (p.hit).1.x = p.x ∧ (p.hit).1.y = p.y ∧ (p.hit).1.width = p.width ∧
      (p.hit).1.height = p.height ∧ (p.hit).1.active = p.active ∧
      (p.hit).1.fuel = p.fuel := by
  unfold Player.hit; split <;> simp

/-- Unfolded description of `playerHit` (used to drive the lemmas below). -/
theorem playerHit_eq (env : Env) (g : Game) :
    g.playerHit env =
      if g.player.isInvincible then g
      else if g.player.lives - 1 ≤ 0 then (hitOutcome env g).setState .game_over
      else hitOutcome env g := by
  unfold Game.playerHit Player.hit hitOutcome
  cases hb : g.player.isInvincible <;> simp [hb]

/-- `playerHit` never increases the player's lives. -/
theorem playerHit_lives (env : Env) (g : Game) :
    (g.playerHit env).player.lives ≤ g.player.lives := by
  rw [playerHit_eq]
  split_ifs <;> simp [hitOutcome] <;> linarith [le_refl g.player.lives]

/-- `playerHit` preserves the entity lists, score, terrain, geometry of the
player and its fuel (it only touches lives/invincibility, particles, the
random cursor, the state and the best score). -/
theorem playerHit_keeps (env : Env) (g : Game) :
    (g.playerHit env).enemies = g.enemies ∧
    (g.playerHit env).groundTargets = g.groundTargets ∧
    (g.playerHit env).score = g.score ∧
    (g.playerHit env).bullets = g.bullets ∧
    (g.playerHit env).bombs = g.bombs ∧
    (g.playerHit env).terrain = g.terrain ∧
    (g.playerHit env).player.fuel = g.player.fuel ∧
    (g.playerHit env).player.x = g.player.x ∧
    (g.playerHit env).player.y = g.player.y ∧
    (g.playerHit env).player.width = g.player.width ∧
    (g.playerHit env).player.height = g.player.height ∧
    (g.playerHit env).player.active = g.player.active := by
  rw [playerHit_eq]
  split_ifs <;> simp [hitOutcome]

/-- Unfolded description of `playerCrash`. -/
theorem playerCrash_eq (env : Env) (g : Game) :
    g.playerCrash env =
      if g.player.lives - 1 ≤ 0 then (crashOutcome env g).setState .game_over
      else
        { crashOutcome env g with
          player :=
            { (crashOutcome env g).player with
              x := 60,
              y := g.canvasHeight / 2 - g.player.height / 2,
              isInvincible := true, invincibleTimer := 120,
              fuel := max (g.player.fuel) 30 } } := by
  unfold Game.playerCrash crashOutcome
  simp only []

/-- `playerCrash` decrements lives by exactly one, invincible or not. -/
theorem playerCrash_lives (env : Env) (g : Game) :
    (g.playerCrash env).player.lives = g.player.lives - 1 := by
  rw [playerCrash_eq]
  split_ifs <;> simp [crashOutcome]

/-! ## C1 — crash resolution -/

/-- C1: when a PLAYING-state frame's pipeline ends with the player striking
a terrain wall or with exhausted fuel, the frame resolves as `playerCrash`
on the mid-frame state `m`: lives drop by exactly one (even while
invincible — no invincibility hypothesis appears); with lives remaining the
player is reset to x = 60, vertically centered, invincible for 120 frames,
with fuel floored at 30 and no state transition; with no lives remaining
the state machine enters GAME_OVER. -/
theorem crash_resolution (env : Env) (g : Game) (m : Game)
    (hm : m = g.updatePrefix env)
    (hstate : g.state = GameState.playing)
    (hcrash : (m.terrain.checkCollision m.player.toEntity).isSome ∨
      m.player.fuel ≤ 0) :
    g.updatePlaying env = m.playerCrash env ∧
    (m.playerCrash env).player.lives = m.player.lives - 1 ∧
    (0 < m.player.lives - 1 →
      (m.playerCrash env).player.x = 60 ∧
      (m.playerCrash env).player.y = m.canvasHeight / 2 - m.player.height / 2 ∧
      (m.playerCrash env).player.isInvincible = true ∧
      (m.playerCrash env).player.invincibleTimer = 120 ∧
      (m.playerCrash env).player.fuel = max m.player.fuel 30 ∧
      (m.playerCrash env).state = m.state) ∧
    (m.player.lives - 1 ≤ 0 → (m.playerCrash env).state = GameState.game_over) := by
  subst hm
  refine ⟨?_, playerCrash_lives env _, ?_, ?_⟩
  · unfold Game.updatePlaying
    rcases hcrash with hc | hf
    · simp [hc]
    · by_cases hc : ((g.updatePrefix env).terrain.checkCollision
        (g.updatePrefix env).player.toEntity).isSome
      · simp [hc]
      · simp [hc, hf]
  · intro hpos
    rw [playerCrash_eq, if_neg (by linarith)]
    simp [crashOutcome]
  · intro hneg
    rw [playerCrash_eq, if_pos (by simpa [crashOutcome] using hneg)]
    exact setState_state _ _

/-- Witness for C1: a fuel-exhausted frame crashes, and all crash effects
hold at this concrete state. -/
theorem crash_resolution_witness :
    gC1.state = GameState.playing ∧
    ((mC1.terrain.checkCollision mC1.player.toEntity).isSome ∨
      mC1.player.fuel ≤ 0) ∧
    (gC1.updatePlaying env0 = mC1.playerCrash env0 ∧
      (mC1.playerCrash env0).player.lives = mC1.player.lives - 1 ∧
      (0 < mC1.player.lives - 1 →
        (mC1.playerCrash env0).player.x = 60 ∧
        (mC1.playerCrash env0).player.y =
          mC1.canvasHeight / 2 - mC1.player.height / 2 ∧
        (mC1.playerCrash env0).player.isInvincible = true ∧
        (mC1.playerCrash env0).player.invincibleTimer = 120 ∧
        (mC1.playerCrash env0).player.fuel = max mC1.player.fuel 30 ∧
        (mC1.playerCrash env0).state = mC1.state) ∧
      (mC1.player.lives - 1 ≤ 0 →
        (mC1.playerCrash env0).state = GameState.game_over)) := by
  have hfuel : mC1.player.fuel ≤ 0 := by
    show (gC1.updatePrefix env0).player.fuel ≤ 0
    norm_num [Game.updatePrefix, Game.stepDistance, Game.stepTerrain,
      Game.stepPlayer, Game.stepShoot, Game.stepBomb, Game.stepSpawn,
      Game.updateEnemies, Game.updateGroundTargets, Game.updateBullets,
      Game.updateBombs, Game.checkCollisions, Game.phase1, Game.phase2,
      Game.phase3, Game.phase4, Game.phase5, p1Aux, p2Aux, p3Aux,
      hostileScan, bodyScan, updateEnemiesAux, updateTargetsAux,
      updateBombsAux, gC1, tC1, input0, rngHalf, Player.init, Player.update,
      TerrainGenerator.update, TerrainGenerator.getSafeZone,
      SpawnManager.update, SpawnManager.init, Rng.next, stage0, STAGES]
  exact ⟨rfl, Or.inr hfuel,
    crash_resolution env0 gC1 mC1 rfl rfl (Or.inr hfuel)⟩

/-! ## C2 — invincibility idempotence -/

/-- C2: while invincible, `Player.hit` reports false and changes nothing
(lives and the invincibility timer included), and any number of repeated
combat-hit resolutions (`playerHit`, the common path of hostile-bullet and
body collisions) leave the game state — hence lives, the timer, and the
machine state — exactly unchanged. -/
theorem invincible_hits_are_noops (env : Env) (g : Game) (p : Player) (n : ℕ)
    (hp : p.isInvincible = true) (hg : g.player.isInvincible = true) :
    p.hit = (p, false) ∧ (Game.playerHit env)^[n] g = g := by
  constructor
  · unfold Player.hit
    simp [hp]
  · refine Function.iterate_fixed ?_ n
    rw [playerHit_eq]
    simp [hg]

/-- Witness for C2 at a concrete invincible state, three repeated hits. -/
theorem invincible_hits_are_noops_witness :
    gC2.player.isInvincible = true ∧
      (gC2.player.hit = (gC2.player, false) ∧
        (Game.playerHit env0)^[3] gC2 = gC2) :=
  ⟨rfl, invincible_hits_are_noops env0 gC2 gC2.player 3 rfl rfl⟩

/-! ## C9 — lives never incremented (counterexample: `Player.reset`) -/

/-- C9 counterexample: `Player.reset` — a public `Player` operation named
by the claim — raises lives from 0 back to 3, so "the lives value after
the operation is less than or equal to the lives value before it" fails. -/
theorem reset_increases_lives :
    ¬ ((p9.reset 800 600).lives ≤ p9.lives) := by
  norm_num [Player.reset, p9, Player.init]

/-! ## C4 — terrain update step -/

/-- C4 counterexample: the claim's eviction rule "removes exactly those
segments whose position + width < -10" fails at the boundary: a shifted
segment with `x + width = -10` (not `< -10`) is nevertheless removed by the
code's strict `> -10` keep test. -/
theorem terrain_update_evicts_at_boundary :
    ¬ (∀ seg ∈ tC4.segments.map (fun sg => sg.update 2),
        ¬(seg.x + seg.width < -10) → seg ∈ (tC4.update env0 2 0).segments) := by
  intro h
  have hm : (⟨-14, 40, 80, 4⟩ : TerrainSegment) ∈
      tC4.segments.map (fun sg => sg.update 2) := by
    norm_num [tC4, TerrainSegment.update]
  have hres : (tC4.update env0 2 0).segments = [] := by
    unfold TerrainGenerator.update
    norm_num [tC4, TerrainSegment.update, List.filter_cons]
  have hmem := h ⟨-14, 40, 80, 4⟩ hm (by norm_num)
  rw [hres] at hmem
  simp at hmem

/-- C4 (amended): one `update` call shifts every segment left by the
scroll speed, removes exactly those shifted segments whose
`x + width ≤ -10` (at-or-beyond the boundary, not strictly beyond), and
then appends exactly one segment — at the surviving rightmost segment's x
plus the fixed segment width — if and only if a rightmost segment exists
and its x is below the canvas width plus the 50px margin. -/
theorem terrain_update_step (env : Env) (t : TerrainGenerator) (s d : ℚ) :
    ∀ kept : List TerrainSegment,
      kept = (t.segments.map fun seg => seg.update s).filter
        (fun seg => !decide (seg.x + seg.width ≤ -10)) →
      ((∀ l, kept.getLast? = some l →
        ((l.x < t.canvasWidth + 50 →
          (t.update env s d).segments =
            kept ++ [t.createSegment env (l.x + t.segmentWidth)
              (d + (l.x + t.segmentWidth))]) ∧
        (¬l.x < t.canvasWidth + 50 → (t.update env s d).segments = kept))) ∧
      (kept.getLast? = none → (t.update env s d).segments = kept)) := by
  intro kept hkept
  have hpred : (fun seg : TerrainSegment => !decide (seg.x + seg.width ≤ -10)) =
      (fun seg : TerrainSegment => decide (seg.x + seg.width > -10)) := by
    funext seg
    rw [← decide_not]
    exact decide_eq_decide.mpr not_le
  rw [hpred] at hkept
  subst hkept
  constructor
  · intro l hl
    constructor
    · intro hlt
      unfold TerrainGenerator.update
      simp only []
      rw [hl]
      simp only []
      rw [if_pos hlt]
    · intro hge
      unfold TerrainGenerator.update
      simp only []
      rw [hl]
      simp only []
      rw [if_neg hge]
  · intro hnone
    unfold TerrainGenerator.update
    simp only []
    rw [hnone]

/-- Witness for C4 (amended): at a concrete one-segment terrain the
survivor list, the append condition and the appended segment are all
realized. -/
theorem terrain_update_step_witness :
    ((tC4w.segments.map fun seg => seg.update 1).filter
        (fun seg => !decide (seg.x + seg.width ≤ -10))).getLast? =
      some ⟨-1, 40, 80, 4⟩ ∧
    ((-1 : ℚ) < tC4w.canvasWidth + 50) ∧
    (tC4w.update env0 1 0).segments =
      ((tC4w.segments.map fun seg => seg.update 1).filter
        (fun seg => !decide (seg.x + seg.width ≤ -10))) ++
        [tC4w.createSegment env0 ((-1 : ℚ) + tC4w.segmentWidth)
          (0 + ((-1 : ℚ) + tC4w.segmentWidth))] := by
  have hK : ((tC4w.segments.map fun seg => seg.update 1).filter
      (fun seg => !decide (seg.x + seg.width ≤ -10))).getLast? =
      some ⟨-1, 40, 80, 4⟩ := by
    norm_num [tC4w, TerrainSegment.update, List.filter_cons]
  have hlt : ((-1 : ℚ) < tC4w.canvasWidth + 50) := by norm_num [tC4w]
  exact ⟨hK, hlt,
    ((terrain_update_step env0 tC4w 1 0 _ rfl).1 ⟨-1, 40, 80, 4⟩ hK).1 hlt⟩

/-! ## C6 — narrow-corridor spawn skip -/

/-- C6: with a selected enemy configuration, `spawnEnemy` returns nothing
(and cannot error — it is total) when the corridor is too narrow
(`safeZone.bottom - height - 10 ≤ safeZone.top + 10`), and otherwise
returns an enemy whose y lies in
`[safeZone.top + 10, safeZone.bottom - height - 10]` with
`x = canvasWidth + 50`, given that the placement draw is a unit-interval
`Math.random` value. -/
theorem spawnEnemy_corridor (env : Env) (sm : SpawnManager)
    (t : TerrainGenerator) (rng : Rng) (cfg : EnemyConfig)
    (hsel : selectedEnemyConfig sm rng = some cfg)
    (h0 : 0 ≤ rng.seq (rng.k + 1)) (h1 : rng.seq (rng.k + 1) < 1) :
    (t.getSafeZone.bottom - cfg.height - 10 ≤ t.getSafeZone.top + 10 →
      (sm.spawnEnemy env t rng).1 = none) ∧
    (¬(t.getSafeZone.bottom - cfg.height - 10 ≤ t.getSafeZone.top + 10) →
      ∃ e, (sm.spawnEnemy env t rng).1 = some e ∧
        t.getSafeZone.top + 10 ≤ e.y ∧
        e.y ≤ t.getSafeZone.bottom - cfg.height - 10 ∧
        e.x = sm.canvasWidth + 50) := by
  unfold SpawnManager.spawnEnemy
  unfold selectedEnemyConfig at hsel
  simp only [Rng.next]
  cases hty : listGetInt sm.config.enemyTypes
      ⌊rng.seq rng.k * (sm.config.enemyTypes.length : ℚ)⌋ with
  | none => rw [hty] at hsel; simp only [] at hsel; cases hsel
  | some ty =>
    rw [hty] at hsel
    simp only [] at hsel
    simp only []
    cases hcf : ENEMY_TYPES ty with
    | none => rw [hcf] at hsel; cases hsel
    | some cfg2 =>
      rw [hcf] at hsel
      injection hsel with hcfg
      subst hcfg
      simp only []
      constructor
      · intro hnarrow
        rw [if_pos hnarrow]
      · intro hwide
        rw [if_neg hwide]
        have hd : 0 < (t.getSafeZone.bottom - cfg2.height - 10) -
            (t.getSafeZone.top + 10) := by linarith [not_le.mp hwide]
        refine ⟨_, rfl, ?_, ?_, rfl⟩
        · show t.getSafeZone.top + 10 ≤ t.getSafeZone.top + 10 +
            rng.seq (rng.k + 1) * ((t.getSafeZone.bottom - cfg2.height - 10) -
              (t.getSafeZone.top + 10))
          have := mul_nonneg h0 (le_of_lt hd)
          linarith
        · show t.getSafeZone.top + 10 +
            rng.seq (rng.k + 1) * ((t.getSafeZone.bottom - cfg2.height - 10) -
              (t.getSafeZone.top + 10)) ≤ t.getSafeZone.bottom - cfg2.height - 10
          have := mul_lt_of_lt_one_left hd h1
          linarith

/-- Witness for C6: the stage-0 rocket attempted into a 100–100 corridor of
a 200px canvas is silently skipped. -/
theorem spawnEnemy_corridor_witness :
    selectedEnemyConfig smC6 rngHalf = some rocketConfig ∧
    (0 : ℚ) ≤ rngHalf.seq (rngHalf.k + 1) ∧
    rngHalf.seq (rngHalf.k + 1) < 1 ∧
    (tC6.getSafeZone.bottom - rocketConfig.height - 10 ≤
      tC6.getSafeZone.top + 10) ∧
    (smC6.spawnEnemy env0 tC6 rngHalf).1 = none := by
  have hsel : selectedEnemyConfig smC6 rngHalf = some rocketConfig := by
    unfold selectedEnemyConfig smC6 SpawnManager.init rngHalf
    norm_num [stage0, STAGES, listGetInt, ENEMY_TYPES, rocketConfig]
  have h0 : (0 : ℚ) ≤ rngHalf.seq (rngHalf.k + 1) := by norm_num [rngHalf]
  have h1 : rngHalf.seq (rngHalf.k + 1) < 1 := by norm_num [rngHalf]
  have hnarrow : tC6.getSafeZone.bottom - rocketConfig.height - 10 ≤
      tC6.getSafeZone.top + 10 := by
    norm_num [tC6, TerrainGenerator.getSafeZone, rocketConfig, List.filter_cons]
  exact ⟨hsel, h0, h1, hnarrow,
    (spawnEnemy_corridor env0 smC6 tC6 rngHalf rocketConfig hsel h0 h1).1 hnarrow⟩

/-! ## C9 (amended) — lives never increase during a run -/

/-- The bomb-vs-target phase body never changes the player's lives (its
only player mutation is `addFuel`). -/
theorem p2Aux_player_lives (env : Env) :
    ∀ (bs : List Bomb) (ts : List GroundTarget) (p : Player) (sc : ℚ)
      (ps : List Particle) (rng : Rng),
      (p2Aux env bs ts p sc ps rng).player.lives = p.lives := by
  intro bs
  induction bs with
  | nil => intro ts p sc ps rng; rfl
  | cons b rest ih =>
    intro ts p sc ps rng
    unfold p2Aux
    by_cases hb : b.active = true
    · rw [if_pos hb]
      cases hk : killFirstTarget b.toEntity ts with
      | none => simp only []; exact ih ts p sc ps rng
      | some pr =>
        obtain ⟨ts2, ht⟩ := pr
        simp only []
        rw [ih]
        split_ifs <;> rfl
    · rw [if_neg hb]
      simp only []
      exact ih ts p sc ps rng

/-- The bullet-vs-target phase body never changes the player's lives. -/
theorem p3Aux_player_lives (env : Env) :
    ∀ (bs : List Bullet) (ts : List GroundTarget) (p : Player) (sc : ℚ)
      (ps : List Particle) (rng : Rng),
      (p3Aux env bs ts p sc ps rng).player.lives = p.lives := by
  intro bs
  induction bs with
  | nil => intro ts p sc ps rng; rfl
  | cons b rest ih =>
    intro ts p sc ps rng
    unfold p3Aux
    by_cases hb : b.isPlayerBullet = true ∧ b.active = true
    · rw [if_pos hb]
      cases hk : killFirstTarget b.toEntity ts with
      | none => simp only []; exact ih ts p sc ps rng
      | some pr =>
        obtain ⟨ts2, ht⟩ := pr
        simp only []
        rw [ih]
        split_ifs <;> rfl
    · rw [if_neg hb]
      simp only []
      exact ih ts p sc ps rng

/-- Phase 1 does not touch the player. -/
theorem phase1_player (env : Env) (g : Game) : (g.phase1 env).player = g.player := rfl

/-- Phase 2 preserves the player's lives. -/
theorem phase2_player_lives (env : Env) (g : Game) :
    (g.phase2 env).player.lives = g.player.lives :=
  p2Aux_player_lives env g.bombs g.groundTargets g.player g.score g.particles g.rng

/-- Phase 3 preserves the player's lives. -/
theorem phase3_player_lives (env : Env) (g : Game) :
    (g.phase3 env).player.lives = g.player.lives :=
  p3Aux_player_lives env g.bullets g.groundTargets g.player g.score g.particles g.rng

/-- Phase 4 never increases the player's lives. -/
theorem phase4_player_lives (env : Env) (g : Game) :
    (g.phase4 env).player.lives ≤ g.player.lives := by
  unfold Game.phase4
  simp only []
  split_ifs with h
  · exact playerHit_lives env _
  · exact le_refl _

/-- Phase 5 never increases the player's lives. -/
theorem phase5_player_lives (env : Env) (g : Game) :
    (g.phase5 env).player.lives ≤ g.player.lives := by
  unfold Game.phase5
  simp only []
  cases hs : (bodyScan g.player.toEntity g.enemies).2 with
  | none => exact le_refl _
  | some e => exact playerHit_lives env _

/-- `checkCollisions` never increases the player's lives. -/
theorem checkCollisions_player_lives (env : Env) (g : Game) :
    (g.checkCollisions env).player.lives ≤ g.player.lives := by
  unfold Game.checkCollisions
  have h5 := phase5_player_lives env
    ((((g.phase1 env).phase2 env).phase3 env).phase4 env)
  have h4 := phase4_player_lives env (((g.phase1 env).phase2 env).phase3 env)
  have h3 := phase3_player_lives env ((g.phase1 env).phase2 env)
  have h2 := phase2_player_lives env (g.phase1 env)
  have h1 : (g.phase1 env).player.lives = g.player.lives := by
    rw [phase1_player]
  linarith

/-- The shooting step preserves the player's lives. -/
theorem stepShoot_player_lives (g : Game) :
    (g.stepShoot).player.lives = g.player.lives := by
  unfold Game.stepShoot
  split_ifs with h
  · rcases hs : g.player.shoot with ⟨p2, ob⟩
    have hl := Player.shoot_lives g.player
    rw [hs] at hl
    cases ob <;> simpa using hl
  · rfl

/-- The bombing step preserves the player's lives. -/
theorem stepBomb_player_lives (g : Game) :
    (g.stepBomb).player.lives = g.player.lives := by
  unfold Game.stepBomb
  split_ifs with h
  · rcases hs : g.player.bomb with ⟨p2, ob⟩
    have hl := Player.bomb_lives g.player
    rw [hs] at hl
    cases ob <;> simpa using hl
  · rfl

/-- The whole pre-crash frame pipeline never increases the player's
lives. -/
theorem updatePrefix_player_lives (env : Env) (g : Game) :
    (g.updatePrefix env).player.lives ≤ g.player.lives := by
  have hBombs : ∀ gg : Game, (gg.updateBombs env).player = gg.player :=
    fun _ => rfl
  have hBullets : ∀ gg : Game, (gg.updateBullets).player = gg.player :=
    fun _ => rfl
  have hTargets : ∀ gg : Game, (gg.updateGroundTargets).player = gg.player :=
    fun _ => rfl
  have hEnemies : ∀ gg : Game, (gg.updateEnemies env).player = gg.player :=
    fun _ => rfl
  have hSpawn : ∀ gg : Game, (gg.stepSpawn env).player = gg.player :=
    fun _ => rfl
  have hPl : ∀ gg : Game, (gg.stepPlayer).player.lives = gg.player.lives :=
    fun _ => rfl
  have hTerr : ∀ gg : Game, (gg.stepTerrain env).player = gg.player :=
    fun _ => rfl
  have hDist : ∀ gg : Game, (gg.stepDistance).player = gg.player :=
    fun _ => rfl
  unfold Game.updatePrefix
  refine le_trans (checkCollisions_player_lives env _) (le_of_eq ?_)
  rw [hBombs, hBullets, hTargets, hEnemies, hSpawn, stepBomb_player_lives,
    stepShoot_player_lives, hPl, hTerr, hDist]

/-- `updatePlaying` never increases the player's lives. -/
theorem updatePlaying_player_lives (env : Env) (g : Game) :
    (g.updatePlaying env).player.lives ≤ g.player.lives := by
  unfold Game.updatePlaying
  simp only []
  have hpre := updatePrefix_player_lives env g
  split_ifs with h1 h2
  · rw [playerCrash_lives]
    linarith
  · rw [playerCrash_lives]
    linarith
  · cases hst : getStage g.currentStage with
    | none => simpa using hpre
    | some cfg =>
      simp only []
      split_ifs with h3
      · rw [setState_player]
        exact hpre
      · exact hpre

/-- C9 (amended): no within-run operation of the player or the game core
increases the lives count — per-frame player update, shooting, bombing,
fuel pickup, combat-hit resolution, crash resolution, collision
resolution, state transitions and the whole PLAYING frame all leave
`lives` at or below its previous value.  (Only the run-reset operation
`Player.reset`, exhibited by the counterexample, restores lives to 3.) -/
theorem lives_never_increase_in_run (env : Env) (g : Game) (p : Player)
    (inp : InputState) (tb bb amt : ℚ) (s : GameState) :
    (p.update inp tb bb).lives = p.lives ∧
    (p.hit).1.lives ≤ p.lives ∧
    (p.addFuel amt).lives = p.lives ∧
    (p.shoot).1.lives = p.lives ∧
    (p.bomb).1.lives = p.lives ∧
    (g.setState s).player.lives = g.player.lives ∧
    (g.playerHit env).player.lives ≤ g.player.lives ∧
    (g.playerCrash env).player.lives ≤ g.player.lives ∧
    (g.checkCollisions env).player.lives ≤ g.player.lives ∧
    (g.updatePlaying env).player.lives ≤ g.player.lives :=
  ⟨Player.update_lives p inp tb bb, Player.hit_lives p, rfl,
    Player.shoot_lives p, Player.bomb_lives p,
    by rw [setState_player], playerHit_lives env g,
    by rw [playerCrash_lives]; linarith [le_refl g.player.lives],
    checkCollisions_player_lives env g, updatePlaying_player_lives env g⟩

/-! ## C10 — hostile bullets interact only with the player -/

/-- Phase 1 ignores non-player bullets: deleting them changes nothing but
the bullet list itself (which it changes by exactly that deletion). -/
theorem p1Aux_hostile_filter (env : Env) :
    ∀ (bs : List Bullet) (es : List Enemy) (sc : ℚ) (ps : List Particle)
      (rng : Rng),
      p1Aux env (bs.filter isPB) es sc ps rng =
        { bullets := (p1Aux env bs es sc ps rng).bullets.filter isPB,
          enemies := (p1Aux env bs es sc ps rng).enemies,
          score := (p1Aux env bs es sc ps rng).score,
          particles := (p1Aux env bs es sc ps rng).particles,
          rng := (p1Aux env bs es sc ps rng).rng } := by
  intro bs
  induction bs with
  | nil => intro es sc ps rng; rfl
  | cons b rest ih =>
    intro es sc ps rng
    by_cases hpb : b.isPlayerBullet = true
    · have hpb' : isPB b = true := hpb
      rw [List.filter_cons_of_pos hpb']
      unfold p1Aux
      by_cases hab : b.active = true
      · rw [if_pos ⟨hpb, hab⟩, if_pos ⟨hpb, hab⟩]
        cases hk : damageFirst b es with
        | none =>
          simp only []
          rw [ih]
          rw [List.filter_cons_of_pos hpb']
        | some pr =>
          obtain ⟨es2, he, destroyed⟩ := pr
          simp only []
          have hpb2 : isPB { b with active := false } = true := hpb
          cases destroyed with
          | true =>
            rw [if_pos rfl, if_pos rfl]
            rw [ih]
            rw [List.filter_cons_of_pos hpb2]
          | false =>
            rw [if_neg (by simp), if_neg (by simp)]
            rw [ih]
            rw [List.filter_cons_of_pos hpb2]
      · rw [if_neg (by simp [hab]), if_neg (by simp [hab])]
        simp only []
        rw [ih]
        rw [List.filter_cons_of_pos hpb']
    · have hpb' : ¬ isPB b = true := hpb
      rw [List.filter_cons_of_neg (by simpa using hpb')]
      rw [ih]
      conv_rhs => unfold p1Aux
      rw [if_neg (by simp [hpb])]
      simp only []
      rw [List.filter_cons_of_neg (by simpa using hpb')]

/-- Phase 3 ignores non-player bullets in the same way. -/
theorem p3Aux_hostile_filter (env : Env) :
    ∀ (bs : List Bullet) (ts : List GroundTarget) (p : Player) (sc : ℚ)
      (ps : List Particle) (rng : Rng),
      p3Aux env (bs.filter isPB) ts p sc ps rng =
        { bullets := (p3Aux env bs ts p sc ps rng).bullets.filter isPB,
          targets := (p3Aux env bs ts p sc ps rng).targets,
          player := (p3Aux env bs ts p sc ps rng).player,
          score := (p3Aux env bs ts p sc ps rng).score,
          particles := (p3Aux env bs ts p sc ps rng).particles,
          rng := (p3Aux env bs ts p sc ps rng).rng } := by
  intro bs
  induction bs with
  | nil => intro ts p sc ps rng; rfl
  | cons b rest ih =>
    intro ts p sc ps rng
    by_cases hpb : b.isPlayerBullet = true
    · have hpb' : isPB b = true := hpb
      rw [List.filter_cons_of_pos hpb']
      unfold p3Aux
      by_cases hab : b.active = true
      · rw [if_pos ⟨hpb, hab⟩, if_pos ⟨hpb, hab⟩]
        cases hk : killFirstTarget b.toEntity ts with
        | none =>
          simp only []
          rw [ih]
          rw [List.filter_cons_of_pos hpb']
        | some pr =>
          obtain ⟨ts2, ht⟩ := pr
          simp only []
          have hpb2 : isPB { b with active := false } = true := hpb
          rw [ih]
          rw [List.filter_cons_of_pos hpb2]
      · rw [if_neg (by simp [hab]), if_neg (by simp [hab])]
        simp only []
        rw [ih]
        rw [List.filter_cons_of_pos hpb']
    · have hpb' : ¬ isPB b = true := hpb
      rw [List.filter_cons_of_neg (by simpa using hpb')]
      rw [ih]
      conv_rhs => unfold p3Aux
      rw [if_neg (by simp [hpb])]
      simp only []
      rw [List.filter_cons_of_neg (by simpa using hpb')]

/-- The hostile-bullet scan finds nothing in a list of player bullets. -/
theorem hostileScan_all_player (pe : Entity) :
    ∀ bs : List Bullet, (∀ b ∈ bs, b.isPlayerBullet = true) →
      hostileScan pe bs = (bs, false) := by
  intro bs
  induction bs with
  | nil => intro _; rfl
  | cons b rest ih =>
    intro h
    unfold hostileScan
    rw [if_pos (Or.inl (h b (List.mem_cons_self b rest)))]
    rw [ih fun x hx => h x (List.mem_cons_of_mem b hx)]

/-- Phase 4 on a state with no hostile bullets is the identity. -/
theorem phase4_no_hostile (env : Env) (a : Game)
    (h : ∀ b ∈ a.bullets, b.isPlayerBullet = true) : a.phase4 env = a := by
  unfold Game.phase4
  rw [hostileScan_all_player a.player.toEntity a.bullets h]
  rfl

/-- Phase 4 preserves the enemy list, target list, score and the player's
fuel and geometry. -/
theorem phase4_keeps (env : Env) (g : Game) :
    (g.phase4 env).enemies = g.enemies ∧
    (g.phase4 env).groundTargets = g.groundTargets ∧
    (g.phase4 env).score = g.score ∧
    (g.phase4 env).player.fuel = g.player.fuel ∧
    (g.phase4 env).player.x = g.player.x ∧
    (g.phase4 env).player.y = g.player.y ∧
    (g.phase4 env).player.width = g.player.width ∧
    (g.phase4 env).player.height = g.player.height ∧
    (g.phase4 env).player.active = g.player.active := by
  unfold Game.phase4
  simp only []
  split_ifs with h
  · obtain ⟨e1, e2, e3, _, _, _, e7, e8, e9, e10, e11, e12⟩ :=
      playerHit_keeps env
        { g with bullets := (hostileScan g.player.toEntity g.bullets).1 }
    exact ⟨e1, e2, e3, e7, e8, e9, e10, e11, e12⟩
  · exact ⟨rfl, rfl, rfl, rfl, rfl, rfl, rfl, rfl, rfl⟩

/-- Phase 5 on two states agreeing on enemies, targets, score and the
player's geometry and fuel produces the same enemies, targets, score and
player fuel. -/
theorem phase5_align (env : Env) (a b : Game)
    (hen : b.enemies = a.enemies)
    (htg : b.groundTargets = a.groundTargets)
    (hsc : b.score = a.score)
    (hfuel : b.player.fuel = a.player.fuel)
    (hx : b.player.x = a.player.x) (hy : b.player.y = a.player.y)
    (hw : b.player.width = a.player.width)
    (hh : b.player.height = a.player.height)
    (hact : b.player.active = a.player.active) :
    (b.phase5 env).enemies = (a.phase5 env).enemies ∧
    (b.phase5 env).groundTargets = (a.phase5 env).groundTargets ∧
    (b.phase5 env).score = (a.phase5 env).score ∧
    (b.phase5 env).player.fuel = (a.phase5 env).player.fuel := by
  have hpe : b.player.toEntity = a.player.toEntity := by
    unfold Player.toEntity
    rw [hx, hy, hw, hh, hact]
  unfold Game.phase5
  rw [hpe, hen]
  simp only []
  cases ho : (bodyScan a.player.toEntity a.enemies).2 with
  | none => exact ⟨rfl, htg, hsc, hfuel⟩
  | some e =>
    obtain ⟨a1, a2, a3, _, _, _, a7, _, _, _, _, _⟩ := playerHit_keeps env
      { a with
        enemies := (bodyScan a.player.toEntity a.enemies).1,
        particles := a.particles ++ (createExplosion env e.toEntity.getCenterX
          e.toEntity.getCenterY e.color 10 a.rng).1,
        rng := (createExplosion env e.toEntity.getCenterX
          e.toEntity.getCenterY e.color 10 a.rng).2 }
    obtain ⟨b1, b2, b3, _, _, _, b7, _, _, _, _, _⟩ := playerHit_keeps env
      { b with
        enemies := (bodyScan a.player.toEntity a.enemies).1,
        particles := b.particles ++ (createExplosion env e.toEntity.getCenterX
          e.toEntity.getCenterY e.color 10 b.rng).1,
        rng := (createExplosion env e.toEntity.getCenterX
          e.toEntity.getCenterY e.color 10 b.rng).2 }
    refine ⟨?_, ?_, ?_, ?_⟩
    · rw [b1, a1]
    · rw [a2, b2]
      exact htg
    · rw [a3, b3]
      exact hsc
    · rw [a7, b7]
      exact hfuel

/-- C10: hostile bullets never interact with enemies or ground targets.
Removing every non-player bullet (`isPB` false) from a frame's collision
resolution leaves the resulting enemy list, ground-target list, score and
player fuel unchanged — so a hostile bullet never damages or deactivates
an enemy or ground target, never awards score and never grants fuel; its
only consequences (self-deactivation and player-hit resolution) concern
the player alone. -/
theorem hostile_bullets_only_player (env : Env) (g : Game) :
    (Game.checkCollisions env
        { g with bullets := g.bullets.filter isPB }).enemies =
      (g.checkCollisions env).enemies ∧
    (Game.checkCollisions env
        { g with bullets := g.bullets.filter isPB }).groundTargets =
      (g.checkCollisions env).groundTargets ∧
    (Game.checkCollisions env
        { g with bullets := g.bullets.filter isPB }).score =
      (g.checkCollisions env).score ∧
    (Game.checkCollisions env
        { g with bullets := g.bullets.filter isPB }).player.fuel =
      (g.checkCollisions env).player.fuel := by
  have h1 : Game.phase1 env { g with bullets := g.bullets.filter isPB } =
      { Game.phase1 env g with
        bullets := (Game.phase1 env g).bullets.filter isPB } := by
    unfold Game.phase1
    simp only []
    rw [p1Aux_hostile_filter]
  have h2 : ∀ a : Game, Game.phase2 env
      { a with bullets := a.bullets.filter isPB } =
      { Game.phase2 env a with
        bullets := (Game.phase2 env a).bullets.filter isPB } := by
    intro a
    unfold Game.phase2
    simp only []
  have h3 : ∀ a : Game, Game.phase3 env
      { a with bullets := a.bullets.filter isPB } =
      { Game.phase3 env a with
        bullets := (Game.phase3 env a).bullets.filter isPB } := by
    intro a
    unfold Game.phase3
    simp only []
    rw [p3Aux_hostile_filter]
  unfold Game.checkCollisions
  rw [h1, h2, h3]
  set A3 := Game.phase3 env (Game.phase2 env (Game.phase1 env g)) with hA3
  have hB4 : Game.phase4 env { A3 with bullets := A3.bullets.filter isPB } =
      { A3 with bullets := A3.bullets.filter isPB } := by
    refine phase4_no_hostile env _ ?_
    intro b hb
    exact (List.mem_filter.mp hb).2
  rw [hB4]
  obtain ⟨k1, k2, k3, k4, k5, k6, k7, k8, k9⟩ := phase4_keeps env A3
  exact phase5_align env (Game.phase4 env A3)
    { A3 with bullets := A3.bullets.filter isPB }
    (by rw [k1]) (by rw [k2]) (by rw [k3]) (by rw [k4]) (by rw [k5])
    (by rw [k6]) (by rw [k7]) (by rw [k8]) (by rw [k9])

/-! ## C3 — the fuel-exhaustion scenario -/

/-- Stage 0 spawns enemies with probability 0.008 per frame. -/
theorem stage0_enemyDensity : stage0.enemyDensity = 0.008 := rfl

/-- Stage 0 spawns ground targets with probability 0.012 per frame. -/
theorem stage0_groundTargetDensity : stage0.groundTargetDensity = 0.012 := rfl

/-- Stage 0 scrolls at 1.8 = 9/5 pixels per frame. -/
theorem stage0_scrollSpeed : stage0.scrollSpeed = 9/5 := by
  show (1.8 : ℚ) = 9/5
  norm_num

/-- Stage 0's base ceiling height. -/
theorem stage0_baseTopHeight : stage0.baseTopHeight = 40 := rfl

/-- Stage 0's base floor height. -/
theorem stage0_baseBottomHeight : stage0.baseBottomHeight = 80 := rfl

/-- Stage 0's travel length. -/
theorem stage0_length : stage0.length = 1800 := rfl

/-- Looking up stage index 0 yields the first stage record. -/
theorem getStage_zero : getStage 0 = some stage0 := rfl

/-- The all-zero environment makes the noise vanish. -/
theorem noise_env0 (t : TerrainGenerator) (x : ℚ) : t.noise env0 x = 0 := by
  unfold TerrainGenerator.noise env0
  norm_num

/-- With vanishing noise and the stage-0 configuration, every created
segment is a 4-wide slice with heights 40/80. -/
theorem createSegment_env0 (t : TerrainGenerator) (x w : ℚ)
    (hcfg : t.config = stage0) (hsw : t.segmentWidth = 4) :
    t.createSegment env0 x w = ⟨x, 40, 80, 4⟩ := by
  unfold TerrainGenerator.createSegment
  rw [noise_env0, hcfg, hsw, stage0_baseTopHeight, stage0_baseBottomHeight]
  norm_num

/-- `TerrainGenerator.update` changes only the segment list. -/
theorem terrain_update_fields (t : TerrainGenerator) (env : Env) (s d : ℚ) :
    (t.update env s d).canvasWidth = t.canvasWidth ∧
    (t.update env s d).canvasHeight = t.canvasHeight ∧
    (t.update env s d).config = t.config ∧
    (t.update env s d).segmentWidth = t.segmentWidth := by
  unfold TerrainGenerator.update
  simp only []
  cases hl : ((t.segments.map fun sg => sg.update s).filter
      fun sg => decide (sg.x + sg.width > -10)).getLast? with
  | none => exact ⟨rfl, rfl, rfl, rfl⟩
  | some l =>
    simp only []
    split_ifs <;> exact ⟨rfl, rfl, rfl, rfl⟩

/-- One scenario frame of `Player.update`: with no input held, the player
only drains 1/20 fuel (exact, with the clamp at 0 inactive until frame
2000, where it fixes the exact value 0). -/
theorem scenarioPlayer_update (n : ℕ) (hn : n + 1 ≤ 2000) (tb bb : ℚ) :
    (scenarioPlayer n).update input0 tb bb = scenarioPlayer (n + 1) := by
  have hcast : ((n : ℚ) + 1) ≤ 2000 := by exact_mod_cast hn
  unfold Player.update scenarioPlayer Player.init input0
  simp only []
  norm_num
  split_ifs with hf
  · push_cast
    linarith
  · push_cast
    ring

/-- A `SpawnManager.update` draw of 1/2 fails both stage-0 Bernoulli
trials: no spawns, both timers tick, two draws consumed. -/
theorem spawn_skip (sm : SpawnManager) (t : TerrainGenerator) (d : ℚ)
    (rng : Rng) (hcfg : sm.config = stage0)
    (hseq : rng.seq = fun _ => (1 : ℚ)/2) :
    sm.update env0 t d rng =
      ⟨[], [],
        { sm with
          spawnTimer := sm.spawnTimer + 1,
          groundSpawnTimer := sm.groundSpawnTimer + 1 },
        ⟨rng.seq, rng.k + 1 + 1⟩⟩ := by
  unfold SpawnManager.update
  simp only [Rng.next]
  rw [hseq, hcfg]
  rw [if_neg (by rw [stage0_enemyDensity]; norm_num)]
  rw [if_neg (by rw [stage0_groundTargetDensity]; norm_num)]

/-- A list's last element (when present) is a member. -/
theorem mem_of_getLast?_eq {α : Type} :
    ∀ (l : List α) (a : α), l.getLast? = some a → a ∈ l := by
  intro l
  induction l with
  | nil => intro a h; cases h
  | cons x xs ih =>
    intro a h
    cases xs with
    | nil =>
      have : x = a := by simpa using h
      subst this
      exact List.mem_cons_self x []
    | cons y ys =>
      rw [List.getLast?_cons_cons] at h
      exact List.mem_cons_of_mem x (ih a h)

/-- Scenario terrain step: one stage-0 `update` by 9/5 preserves the
segment-shape invariant (all slices 4-wide with heights 40/80, rightmost
at x ≥ 836). -/
theorem terrain_step_inv (t : TerrainGenerator) (d : ℚ)
    (htcw : t.canvasWidth = 800) (htcfg : t.config = stage0)
    (htsw : t.segmentWidth = 4)
    (hall : ∀ s ∈ t.segments, s.topHeight = 40 ∧ s.bottomHeight = 80 ∧ s.width = 4)
    (hlast : ∃ l, t.segments.getLast? = some l ∧ 836 ≤ l.x) :
    (∀ s ∈ (t.update env0 (9/5) d).segments,
      s.topHeight = 40 ∧ s.bottomHeight = 80 ∧ s.width = 4) ∧
    (∃ l, (t.update env0 (9/5) d).segments.getLast? = some l ∧ 836 ≤ l.x) := by
  obtain ⟨l, hl, hlx⟩ := hlast
  have hlw : l.width = 4 := (hall l (mem_of_getLast?_eq _ _ hl)).2.2
  have hlm : (t.segments.map fun sg => sg.update (9/5)).getLast? =
      some (l.update (9/5)) := by
    rw [getLast?_map_eq, hl]
    rfl
  have hpl : (fun sg : TerrainSegment => decide (sg.x + sg.width > -10))
      (l.update (9/5)) = true := by
    simp only [TerrainSegment.update, decide_eq_true_eq]
    show -10 < l.x - 9/5 + l.width
    rw [hlw]
    linarith
  have hkl := getLast?_filter
    (fun sg : TerrainSegment => decide (sg.x + sg.width > -10)) _ _ hlm hpl
  have hkeptmem : ∀ s ∈ (t.segments.map fun sg => sg.update (9/5)).filter
      (fun sg => decide (sg.x + sg.width > -10)),
      s.topHeight = 40 ∧ s.bottomHeight = 80 ∧ s.width = 4 := by
    intro s hs
    have hs2 := List.mem_of_mem_filter hs
    obtain ⟨s0, hs0, rfl⟩ := List.mem_map.mp hs2
    obtain ⟨h1, h2, h3⟩ := hall s0 hs0
    exact ⟨h1, h2, h3⟩
  unfold TerrainGenerator.update
  simp only []
  rw [hkl]
  simp only []
  split_ifs with hcase
  · constructor
    · intro s hs
      rcases List.mem_append.mp hs with hs | hs
      · exact hkeptmem s hs
      · have : s = t.createSegment env0 ((l.update (9/5)).x + t.segmentWidth)
            (d + ((l.update (9/5)).x + t.segmentWidth)) := by simpa using hs
        subst this
        rw [createSegment_env0 t _ _ htcfg htsw]
        exact ⟨rfl, rfl, rfl⟩
    · refine ⟨t.createSegment env0 ((l.update (9/5)).x + t.segmentWidth)
        (d + ((l.update (9/5)).x + t.segmentWidth)),
        List.getLast?_concat _, ?_⟩
      rw [createSegment_env0 t _ _ htcfg htsw]
      show (836 : ℚ) ≤ (l.update (9/5)).x + t.segmentWidth
      simp only [TerrainSegment.update]
      rw [htsw]
      show (836 : ℚ) ≤ l.x - 9/5 + 4
      linarith
  · exact ⟨hkeptmem, l.update (9/5), hkl, by
      simp only [TerrainSegment.update] at hcase ⊢
      rw [htcw] at hcase
      show (836 : ℚ) ≤ l.x - 9/5
      linarith [not_lt.mp hcase]⟩

/-- With the invariant segment shape, the scenario player (anywhere in the
fuel range) never collides with the terrain. -/
theorem scen_no_collision (t : TerrainGenerator) (m : ℕ)
    (htch : t.canvasHeight = 600)
    (hall : ∀ s ∈ t.segments,
      s.topHeight = 40 ∧ s.bottomHeight = 80 ∧ s.width = 4) :
    t.checkCollision (scenarioPlayer m).toEntity = none := by
  unfold TerrainGenerator.checkCollision
  apply findSome?_none_of
  intro s hs
  obtain ⟨h40, h80, _⟩ := hall s hs
  unfold TerrainSegment.collidesWithEntity
  have hact : (scenarioPlayer m).toEntity.active = true := rfl
  have hy : (scenarioPlayer m).toEntity.y = 292 := by
    show (600 : ℚ) / 2 - 16 / 2 = 292
    norm_num
  have hh : (scenarioPlayer m).toEntity.height = 16 := rfl
  rw [if_neg (by rw [hact]; simp)]
  rw [if_neg (by rw [hy, h40]; intro hcon; exact absurd hcon.1 (by norm_num))]
  rw [if_neg (by
    rw [hy, hh, htch, h80]
    intro hcon
    exact absurd hcon.1 (by norm_num))]

/-- Every initial scenario segment is a 4-wide slice with heights 40/80. -/
theorem tScen_all : ∀ s ∈ tScen.segments,
    s.topHeight = 40 ∧ s.bottomHeight = 80 ∧ s.width = 4 := by
  intro s hs
  unfold tScen TerrainGenerator.init TerrainGenerator.generateInitial at hs
  simp only [Rng.next] at hs
  obtain ⟨i, hi, rfl⟩ := List.mem_map.mp hs
  rw [createSegment_env0 _ _ _ rfl rfl]
  exact ⟨rfl, rfl, rfl⟩

/-- The initial scenario terrain has 210 segments, the rightmost at
`x = 209 * 4 = 836`. -/
theorem tScen_last : ∃ l, tScen.segments.getLast? = some l ∧ 836 ≤ l.x := by
  unfold tScen TerrainGenerator.init TerrainGenerator.generateInitial
  simp only [Rng.next]
  have hN : (⌈(800 : ℚ) / (4 : ℚ)⌉).toNat + 10 = 210 := by
    rw [show (800 : ℚ) / (4 : ℚ) = ((200 : ℤ) : ℚ) by norm_num, Int.ceil_intCast]
    rfl
  rw [hN]
  rw [show (210 : ℕ) = 209 + 1 from rfl, List.range_succ, List.map_append]
  refine ⟨_, by rw [List.map_singleton]; exact List.getLast?_concat _, ?_⟩
  rw [createSegment_env0 _ _ _ rfl rfl]
  show (836 : ℚ) ≤ (209 : ℕ) * 4
  norm_num

/-- The fuel-exhaustion scenario invariant holds at frame 0. -/
theorem scen_base : ScenInv 0 gScen := by
  refine ⟨?_, rfl, rfl, rfl, rfl, rfl, stage0_scrollSpeed, ?_, rfl, rfl,
    rfl, rfl, rfl, rfl, rfl, rfl, tScen_all, tScen_last, rfl⟩
  · show Player.init 800 600 = scenarioPlayer 0
    unfold scenarioPlayer
    norm_num [Player.init]
  · show (0 : ℚ) = ((0 : ℕ) : ℚ) * (9/5)
    norm_num

/-- `setState` preserves the scenario invariant (it never touches the
tracked fields). -/
theorem scenInv_setState {n : ℕ} {g : Game} (h : ScenInv n g) (s : GameState) :
    ScenInv n (g.setState s) :=
  ⟨by rw [setState_player]; exact h.player_eq,
   by rw [setState_enemies]; exact h.enemies_eq,
   by rw [setState_groundTargets]; exact h.targets_eq,
   by rw [setState_bullets]; exact h.bullets_eq,
   by rw [setState_bombs]; exact h.bombs_eq,
   by rw [setState_currentStage]; exact h.stage_eq,
   by rw [setState_scrollSpeed]; exact h.scroll_eq,
   by rw [setState_distance]; exact h.dist_eq,
   by rw [setState_canvasWidth]; exact h.cw_eq,
   by rw [setState_canvasHeight]; exact h.ch_eq,
   by rw [setState_input]; exact h.input_eq,
   by rw [setState_rng]; exact h.seq_eq,
   by rw [setState_terrain]; exact h.tcw,
   by rw [setState_terrain]; exact h.tch,
   by rw [setState_terrain]; exact h.tcfg,
   by rw [setState_terrain]; exact h.tsw,
   by rw [setState_terrain]; exact h.segs_all,
   by rw [setState_terrain]; exact h.segs_last,
   by rw [setState_spawnManager]; exact h.sm_cfg⟩

/-- One pre-crash pipeline pass preserves the scenario invariant, draining
one more frame of fuel. -/
theorem scen_prefix {n : ℕ} {g : Game} (h : ScenInv n g) (hn : n + 1 ≤ 2000) :
    ScenInv (n + 1) (g.updatePrefix env0) := by
  obtain ⟨hpl, hen, htg, hbu, hbo, hcs, hss, hdist, hcw, hch, hinp, hseq, htcw,
    htch, htcfg, htsw, hall, hlast, hsm⟩ := h
  have hupd : ∀ tb bb : ℚ,
      (scenarioPlayer n).update input0 tb bb = scenarioPlayer (n + 1) :=
    fun tb bb => scenarioPlayer_update n hn tb bb
  obtain ⟨st, stT, pl, en, gt, bu, bo, pa, te, sm, sc, bsc, cs, di, ss, inp, cw,
    ch, rng⟩ := g
  obtain ⟨sq, k⟩ := rng
  obtain ⟨smw, smh, smc, t1, t2⟩ := sm
  simp only [] at hpl hen htg hbu hbo hcs hss hdist hcw hch hinp hseq
  simp only [] at htcw htch htcfg htsw hall hlast hsm
  subst hpl hen htg hbu hbo hcs hss hdist hcw hch hinp hseq hsm
  simp only [Game.updatePrefix, Game.stepDistance, Game.stepTerrain,
    Game.stepPlayer, Game.stepShoot, Game.stepBomb, Game.stepSpawn,
    Game.updateEnemies, Game.updateGroundTargets, Game.updateBullets,
    Game.updateBombs, Game.checkCollisions, Game.phase1, Game.phase2,
    Game.phase3, Game.phase4, Game.phase5, p1Aux, p2Aux, p3Aux, hostileScan,
    bodyScan, updateEnemiesAux, updateTargetsAux, updateBombsAux, hupd,
    spawn_skip, input0, List.append_nil, List.nil_append, List.filter_nil,
    List.map_nil, Bool.false_eq_true, if_false]
  refine ⟨?_, rfl, rfl, rfl, rfl, rfl, rfl, ?_, rfl, rfl, rfl, rfl, ?_, ?_,
    ?_, ?_, ?_, ?_, rfl⟩
  · exact hupd _ _
  · show (n : ℚ) * (9/5) + 9/5 = ((n + 1 : ℕ) : ℚ) * (9/5)
    push_cast
    ring
  · rw [(terrain_update_fields te env0 (9/5) ((n : ℚ) * (9/5) + 9/5)).1]
    exact htcw
  · rw [(terrain_update_fields te env0 (9/5) ((n : ℚ) * (9/5) + 9/5)).2.1]
    exact htch
  · rw [(terrain_update_fields te env0 (9/5) ((n : ℚ) * (9/5) + 9/5)).2.2.1]
    exact htcfg
  · rw [(terrain_update_fields te env0 (9/5) ((n : ℚ) * (9/5) + 9/5)).2.2.2]
    exact htsw
  · exact (terrain_step_inv te _ htcw htcfg htsw hall hlast).1
  · exact (terrain_step_inv te _ htcw htcfg htsw hall hlast).2

/-- While fuel stays positive (frames 1 to 1999), a full `updatePlaying`
call preserves the scenario invariant: the crash checks both pass and the
frame ends as the pipeline state (possibly with a stage-transition flag,
which touches none of the tracked fields). -/
theorem scen_step {n : ℕ} {g : Game} (h : ScenInv n g) (hn : n + 1 ≤ 1999) :
    ScenInv (n + 1) (g.updatePlaying env0) := by
  have hm : ScenInv (n + 1) (g.updatePrefix env0) := scen_prefix h (by omega)
  have hcol : (g.updatePrefix env0).terrain.checkCollision
      ((g.updatePrefix env0).player.toEntity) = none := by
    rw [hm.player_eq]
    exact scen_no_collision _ (n + 1) hm.tch hm.segs_all
  have hfuel : ¬ ((g.updatePrefix env0).player.fuel ≤ 0) := by
    rw [hm.player_eq]
    show ¬ ((100 : ℚ) - ((n + 1 : ℕ) : ℚ) * (1/20) ≤ 0)
    have hc : ((n + 1 : ℕ) : ℚ) ≤ 1999 := by exact_mod_cast hn
    intro hcon
    linarith
  unfold Game.updatePlaying
  simp only []
  rw [hcol]
  simp only [Option.isSome_none, Bool.false_eq_true, if_false]
  rw [if_neg hfuel]
  rw [h.stage_eq, getStage_zero]
  simp only []
  split_ifs with hd
  · exact scenInv_setState hm _
  · exact hm

/-- The scenario invariant holds after any number of frames up to 1999. -/
theorem scen_iter (n : ℕ) (hn : n ≤ 1999) :
    ScenInv n ((Game.updatePlaying env0)^[n] gScen) := by
  induction n with
  | zero => exact scen_base
  | succ k ih =>
    rw [Function.iterate_succ_apply']
    exact scen_step (ih (by omega)) hn

/-- A frame whose pipeline state carries the frame-2000 invariant (fuel
exactly 0) resolves as a crash: the collision check still passes, the fuel
check fires. -/
theorem scen_crash {g : Game} (hm : ScenInv 2000 (g.updatePrefix env0)) :
    g.updatePlaying env0 = (g.updatePrefix env0).playerCrash env0 := by
  have hcol : (g.updatePrefix env0).terrain.checkCollision
      ((g.updatePrefix env0).player.toEntity) = none := by
    rw [hm.player_eq]
    exact scen_no_collision _ 2000 hm.tch hm.segs_all
  have hfuel0 : (g.updatePrefix env0).player.fuel = 0 := by
    rw [hm.player_eq]
    show (100 : ℚ) - ((2000 : ℕ) : ℚ) * (1/20) = 0
    norm_num
  unfold Game.updatePlaying
  simp only []
  rw [hcol]
  simp only [Option.isSome_none, Bool.false_eq_true, if_false]
  rw [if_pos (le_of_eq hfuel0)]

/-- The fuel-exhaustion endgame, all in one place: lives are still 3 after
1999 frames; the 2000th call's own player update drains fuel to exactly 0;
that same 2000th call then resolves as `playerCrash`, leaving lives 2 and
fuel floored to 30. -/
theorem scen_final :
    ((Game.updatePlaying env0)^[1999] gScen).player.lives = 3 ∧
    (((Game.updatePlaying env0)^[1999] gScen).updatePrefix env0).player.fuel
      = 0 ∧
    (Game.updatePlaying env0)^[2000] gScen =
      (((Game.updatePlaying env0)^[1999] gScen).updatePrefix env0).playerCrash
        env0 ∧
    ((Game.updatePlaying env0)^[2000] gScen).player.lives = 2 ∧
    ((Game.updatePlaying env0)^[2000] gScen).player.fuel = 30 := by
  have h99 : ScenInv 1999 ((Game.updatePlaying env0)^[1999] gScen) :=
    scen_iter 1999 (le_refl _)
  have hm : ScenInv 2000
      (((Game.updatePlaying env0)^[1999] gScen).updatePrefix env0) :=
    scen_prefix h99 (by omega)
  have hl3 : ((Game.updatePlaying env0)^[1999] gScen).player.lives = 3 := by
    rw [h99.player_eq]
    rfl
  have hfuel0 : (((Game.updatePlaying env0)^[1999] gScen).updatePrefix
      env0).player.fuel = 0 := by
    rw [hm.player_eq]
    show (100 : ℚ) - ((2000 : ℕ) : ℚ) * (1/20) = 0
    norm_num
  have hstep : (Game.updatePlaying env0)^[2000] gScen =
      (((Game.updatePlaying env0)^[1999] gScen).updatePrefix env0).playerCrash
        env0 := by
    rw [show (2000 : ℕ) = 1999 + 1 from rfl, Function.iterate_succ_apply']
    exact scen_crash hm
  have hl2 : ((Game.updatePlaying env0)^[2000] gScen).player.lives = 2 := by
    rw [hstep, playerCrash_lives, hm.player_eq]
    show (3 : ℚ) - 1 = 2
    norm_num
  have hf30 : ((Game.updatePlaying env0)^[2000] gScen).player.fuel = 30 := by
    rw [hstep, playerCrash_eq]
    rw [if_neg (by
      rw [hm.player_eq]
      show ¬ ((3 : ℚ) - 1 ≤ 0)
      norm_num)]
    show max ((((Game.updatePlaying env0)^[1999]
      gScen).updatePrefix env0).player.fuel) 30 = 30
    rw [hfuel0]
    exact max_eq_right (by norm_num)
  exact ⟨hl3, hfuel0, hstep, hl2, hf30⟩

/-! ## C3 — fuel-exhaustion scenario -/

/-- C3 (amended): in the fuel-exhaustion scenario (start fuel 100, drain
1/20 per frame, no pickups, no collisions, no spawns), the 2000th
player-update frame brings fuel to exactly 0, and that same 2000th
`updatePlaying` call — not a 2001st — already resolves the crash: its fuel
check runs after its own player update, so lives drop from 3 to 2 and fuel
is floored to 30 within call 2000. -/
theorem fuel_exhaustion_crash_in_call_2000 :
    ((Game.updatePlaying env0)^[1999] gScen).player.lives = 3 ∧
    (((Game.updatePlaying env0)^[1999] gScen).updatePrefix env0).player.fuel
      = 0 ∧
    (Game.updatePlaying env0)^[2000] gScen =
      (((Game.updatePlaying env0)^[1999] gScen).updatePrefix env0).playerCrash
        env0 ∧
    ((Game.updatePlaying env0)^[2000] gScen).player.lives = 2 :=
  ⟨scen_final.1, scen_final.2.1, scen_final.2.2.1, scen_final.2.2.2.1⟩

/-- C3 (counterexample): the claim that the crash only happens in the
2001st `updatePlaying` call is false — after the 2000th call the lives
count has already dropped (it is 2, not the starting 3). -/
theorem fuel_crash_not_in_call_2001 :
    ¬ ((Game.updatePlaying env0)^[2000] gScen).player.lives = 3 := by
  rw [scen_final.2.2.2.1]
  norm_num

end Scramble
